import Mathlib

/-!
# Verification of the s626 acquisition engine

Shallow embedding of `drivers/staging/comedi/drivers/s626.c` (Sensoray 626
comedi driver), covering the parts of the driver that the specification's
claims are about:

* the counter/timer abstraction (`s626_get_mode_a/b`, `s626_set_mode_a/b`,
  `s626_pulse_index_a/b` and the small register helpers they use),
* the RPS program compiler (`s626_reset_adc`, `s626_ai_load_polllist`),
* the acquisition state machine (`s626_ai_cmd`, `s626_ai_cancel`,
  `s626_irq_handler`, `s626_handle_eos_interrupt`, the DIO/counter
  interrupt dispatchers),
* timer tick rounding (`s626_ns_to_timer`), and
* streaming-command validation (`s626_ai_cmdtest`).

Modelling conventions:

* Machine integers are modelled as `Nat` with explicit masks/mods where the
  C code truncates; 32-bit unsigned wraparound is written `% 2 ^ 32`.
* The repository's header files (`s626.h`, `comedi.h`, `comedi_fc.h`) are
  not part of the source tree given under `src/`; constants and helpers
  from them are modelled from the specification (each carries a doc comment
  saying so).  Only their distinctness and bit structure are used by the
  driver code embedded here.
* Hardware registers reached over the DEBI bus are modelled as records of
  their logical bit fields, one record field per bit field of the hardware
  register.  `s626_debi_replace` (read-modify-write under a keep-mask) maps
  to field-wise retention/replacement because every keep-mask used by the
  driver is a union of whole fields.
* The stateful driver functions become explicit state-passing functions on
  `S626State`; the interrupt handler becomes a step function on that state.
-/

/-! ## Constants from the comedi framework headers

Modelled from the spec: trigger-source selector bits for the streaming
command's five trigger classes (start / scan-begin / convert / scan-end /
stop).  Their defining header is part of the repository but not under
`src/`; the driver only masks and compares them. -/

def TRIG_NONE : Nat := 0x01
def TRIG_NOW : Nat := 0x02
def TRIG_FOLLOW : Nat := 0x04
def TRIG_TIME : Nat := 0x08
def TRIG_TIMER : Nat := 0x10
def TRIG_COUNT : Nat := 0x20
def TRIG_EXT : Nat := 0x40
def TRIG_INT : Nat := 0x80

/-- Modelled from the spec: rounding-policy selector bits carried in a
command's `flags` word (comedi framework header, not under `src/`). -/
def TRIG_ROUND_MASK : Nat := 0x00030000
def TRIG_ROUND_NEAREST : Nat := 0x00000000
def TRIG_ROUND_DOWN : Nat := 0x00010000
def TRIG_ROUND_UP : Nat := 0x00020000

/-- Modelled from the spec: comedi chanspec accessor `CR_CHAN` — the channel
number field of a packed channel specification. -/
def CR_CHAN (a : Nat) : Nat := a &&& 0xffff

/-- Modelled from the spec: comedi chanspec accessor `CR_RANGE` — the range
selector field of a packed channel specification. -/
def CR_RANGE (a : Nat) : Nat := (a >>> 16) &&& 0xff

/-! ## Tick computation (`s626_ns_to_timer`)

The C function takes `int *nanosec` and an `int round_mode` and is only ever
called with nanosecond intervals already validated into
`[S626_MAX_SPEED, S626_MIN_SPEED] = [200000, 2000000000]`, which is inside
the nonnegative `int` range; on that domain C's truncating division agrees
with `Nat` division, so the interval is modelled as `Nat`.  The result pair
is (return value `divider - 1` as `Int`, written-back realized interval
`base * divider`). -/

/-- `s626_ns_to_timer` from s626.c: compute `divider` from the requested
interval per the rounding policy (`base = 500` ns, the 2 MHz internal
clock), write the realized interval `base * divider` back through the
caller's pointer (second component) and return `divider - 1` (first
component). -/
def s626_ns_to_timer (nanosec : Nat) (round_mode : Nat) : Int × Nat :=
  let base : Nat := 500
  let divider : Nat :=
    if round_mode = TRIG_ROUND_DOWN then
      nanosec / base
    else if round_mode = TRIG_ROUND_UP then
      (nanosec + base - 1) / base
    else
      -- TRIG_ROUND_NEAREST and the switch's default case
      (nanosec + base / 2) / base
  ((divider : Int) - 1, base * divider)

/-- C4: for every requested interval, the divider realizes the selected
rounding policy (nearest / down / up), the realized interval `500 * divider`
is written back for the caller, and the returned value is `divider - 1`;
at input 999 the three policies give dividers 2, 1, 2 and realized
intervals 1000, 500, 1000. -/
theorem s626_ns_to_timer_spec :
    (∀ ns : Nat,
      (∀ d : Nat, (s626_ns_to_timer ns TRIG_ROUND_DOWN).2 = 500 * d →
        (s626_ns_to_timer ns TRIG_ROUND_DOWN).1 = (d : Int) - 1) ∧
      ((s626_ns_to_timer ns TRIG_ROUND_DOWN).2 ≤ ns ∧
        ns < (s626_ns_to_timer ns TRIG_ROUND_DOWN).2 + 500) ∧
      (ns ≤ (s626_ns_to_timer ns TRIG_ROUND_UP).2 ∧
        (s626_ns_to_timer ns TRIG_ROUND_UP).2 < ns + 500) ∧
      ((s626_ns_to_timer ns TRIG_ROUND_NEAREST).2 ≤ ns + 250 ∧
        ns < (s626_ns_to_timer ns TRIG_ROUND_NEAREST).2 + 250) ∧
      (∀ mode : Nat, (s626_ns_to_timer ns mode).2 % 500 = 0 ∧
        (s626_ns_to_timer ns mode).1 =
          ((s626_ns_to_timer ns mode).2 / 500 : Nat) - 1)) ∧
    s626_ns_to_timer 999 TRIG_ROUND_NEAREST = (1, 1000) ∧
    s626_ns_to_timer 999 TRIG_ROUND_DOWN = (0, 500) ∧
    s626_ns_to_timer 999 TRIG_ROUND_UP = (1, 1000) := by
  refine ⟨fun ns => ⟨?_, ?_, ?_, ?_, ?_⟩, by decide, by decide, by decide⟩
  · intro d hd
    simp only [s626_ns_to_timer] at hd ⊢
    omega
  · simp only [s626_ns_to_timer]
    norm_num
    omega
  · simp only [s626_ns_to_timer]
    norm_num [TRIG_ROUND_UP, TRIG_ROUND_DOWN]
    omega
  · simp only [s626_ns_to_timer]
    norm_num [TRIG_ROUND_NEAREST, TRIG_ROUND_DOWN, TRIG_ROUND_UP]
    omega
  · intro mode
    simp only [s626_ns_to_timer]
    constructor
    · split
      · simp [Nat.mul_mod_right]
      · split <;> simp [Nat.mul_mod_right]
    · split <;> omega

/-- Witness for C4's universally quantified rounding characterization,
evaluated at the spec's example input 999. -/
theorem s626_ns_to_timer_spec_witness :
    (s626_ns_to_timer 999 TRIG_ROUND_DOWN).2 = 500 * 1 ∧
    (s626_ns_to_timer 999 TRIG_ROUND_DOWN).1 = (1 : Int) - 1 :=
  ⟨by decide, (s626_ns_to_timer_spec.1 999).1 1 (by decide)⟩

/-! ## Counter registers and standardized mode

Modelled from the spec: the constants below come from `s626.h`, which is
part of the repository but not under `src/`.  The driver only compares
them for equality and tests the `S626_CNTSRC_SYSCLK` bit, so only their
distinctness and that bit matter. -/

def S626_CLKMULT_4X : Nat := 0
def S626_CLKMULT_2X : Nat := 1
def S626_CLKMULT_1X : Nat := 2
def S626_CLKMULT_SPECIAL : Nat := 3

def S626_CNTSRC_ENCODER : Nat := 0
def S626_CNTSRC_SYSCLK : Nat := 2

def S626_ENCMODE_COUNTER : Nat := 0
def S626_ENCMODE_TIMER : Nat := 2
def S626_ENCMODE_EXTENDER : Nat := 3

def S626_INDXSRC_SOFT : Nat := 1

def S626_LOADSRC_INDX : Nat := 0
def S626_INDXPOL_POS : Nat := 0
def S626_CLKENAB_ALWAYS : Nat := 0
def S626_CLKENAB_INDEX : Nat := 1
def S626_CNTDIR_DOWN : Nat := 1
def S626_INTSRC_OVER : Nat := 1
def S626_LATCHSRC_A_INDXA : Nat := 1

/-- Modelled from the spec: counter overflow/index event flag masks for the
RDMISC2 register — these two macros (`S626_INDXMASK`, `S626_OVERMASK`) are
defined in s626.c itself (lines 148–151). -/
def S626_INDXMASK (c : Nat) : Nat := 1 <<< (if c > 2 then c * 2 - 1 else c * 2 + 4)

def S626_OVERMASK (c : Nat) : Nat := 1 <<< (if c > 2 then c * 2 + 5 else c * 2 + 10)

/-- The `S626_EVBITS(C)` table from s626.c: bit translations for
IntSrc → RDMISC2 event flags, indexed 0..3 per counter. -/
def s626_event_bits (c : Nat) (j : Nat) : Nat :=
  if j = 0 then 0
  else if j = 1 then S626_OVERMASK c
  else if j = 2 then S626_INDXMASK c
  else S626_OVERMASK c ||| S626_INDXMASK c

/-- Field truncation helper: a value written into a 1-bit register field
(the `S626_SET_*` macros mask their argument to the field width). -/
def bits1 (v : Nat) : Nat := v % 2

/-- Field truncation helper: a value written into a 2-bit register field. -/
def bits2 (v : Nat) : Nat := v % 4

/-- The CRA register of a counter pair, modelled as a record of its logical
bit fields.  Modelled from the spec: the concrete bit positions live in
`s626.h` (not under `src/`); the driver always reads/writes whole fields
through its accessor macros and every `s626_debi_replace` keep-mask used on
CRA (`S626_CRAMSK_INDXSRC_B | S626_CRAMSK_CNTSRC_B` or single-field masks)
is a union of whole fields, so the record model is exact. -/
structure CRA where
  loadsrcA : Nat
  indxsrcA : Nat
  intsrcA : Nat
  indxpolA : Nat
  cntsrcA : Nat
  clkpolA : Nat
  clkmultA : Nat
  indxsrcB : Nat
  cntsrcB : Nat
deriving DecidableEq

/-- The CRB register of a counter pair as a record of its logical bit
fields (see `CRA` for the modelling note).  `intctrl` is the 3-bit
interrupt-reset command field `S626_CRBMSK_INTCTRL`
(INTRESET_A = 1, INTRESET_B = 2, INTRESETCMD = 4 within the field). -/
structure CRB where
  intctrl : Nat
  latchsrc : Nat
  loadsrcB : Nat
  intsrcB : Nat
  clkenabA : Nat
  clkenabB : Nat
  indxpolB : Nat
  clkpolB : Nat
  clkmultB : Nat
deriving DecidableEq

/-- Value written into the `intctrl` field by
`S626_SET_CRB_INTRESETCMD(1) | S626_SET_CRB_INTRESET_A(1)`. -/
def S626_INTRESET_CMD_A : Nat := 5

/-- Value written into the `intctrl` field by
`S626_SET_CRB_INTRESETCMD(1) | S626_SET_CRB_INTRESET_B(1)`. -/
def S626_INTRESET_CMD_B : Nat := 6

/-- The register state backing one logical counter: the CRA/CRB control
register pair and the two 16-bit preload ("latch") registers written by
`s626_preload`. -/
structure CounterRegs where
  cra : CRA
  crb : CRB
  preloadLow : Nat
  preloadHigh : Nat
deriving DecidableEq

/-- The standardized counter setup (`COUNTER_SETUP` projection) that
`s626_get_mode_*` returns and `s626_set_mode_*` consumes, as a record of
its spec-defined fields (spec §3 CounterRuntimeState). -/
structure StdSetup where
  loadSrc : Nat
  latchSrc : Nat
  intSrc : Nat
  indxSrc : Nat
  indxPol : Nat
  clkEnab : Nat
  clkMult : Nat
  clkPol : Nat
  encMode : Nat
deriving DecidableEq

/-- `s626_get_mode_a` from s626.c: read CRA/CRB and populate the
standardized counter setup fields, adjusting the mode-dependent parameters
(Timer mode forces ClkMult to 1x and reports ClkPol as the count
direction; Counter mode passes ClkPol through and normalizes an illegal
ClkMult to 1x). -/
def s626_get_mode_a (rs : CounterRegs) : StdSetup :=
  let cra := rs.cra
  let crb := rs.crb
  let cntsrc := cra.cntsrcA
  let emc :=
    if cntsrc &&& S626_CNTSRC_SYSCLK ≠ 0 then
      -- Timer mode (CntSrcA<1> == 1)
      (S626_ENCMODE_TIMER, cntsrc &&& 1, S626_CLKMULT_1X)
    else
      -- Counter mode (CntSrcA<1> == 0)
      (S626_ENCMODE_COUNTER, cra.clkpolA,
        if cra.clkmultA = S626_CLKMULT_SPECIAL then S626_CLKMULT_1X
        else cra.clkmultA)
  { loadSrc := cra.loadsrcA
    latchSrc := crb.latchsrc
    intSrc := cra.intsrcA
    indxSrc := cra.indxsrcA
    indxPol := cra.indxpolA
    clkEnab := crb.clkenabA
    encMode := emc.1
    clkPol := emc.2.1
    clkMult := emc.2.2 }

/-- `s626_get_mode_b` from s626.c: same projection for a B counter
(different register fields; additionally, `ClkMultB == SPECIAL` denotes
Extender mode, reported with multiplier 1x and polarity taken from the
count direction). -/
def s626_get_mode_b (rs : CounterRegs) : StdSetup :=
  let cra := rs.cra
  let crb := rs.crb
  let cntsrc := cra.cntsrcB
  let clkmult0 := crb.clkmultB
  let emc :=
    if clkmult0 = S626_CLKMULT_SPECIAL then
      -- Extender mode (ClkMultB == S626_CLKMULT_SPECIAL)
      (S626_ENCMODE_EXTENDER, cntsrc &&& 1, S626_CLKMULT_1X)
    else if cntsrc &&& S626_CNTSRC_SYSCLK ≠ 0 then
      -- Timer mode (CntSrcB<1> == 1)
      (S626_ENCMODE_TIMER, cntsrc &&& 1, S626_CLKMULT_1X)
    else
      -- Counter mode (CntSrcB<1> == 0)
      (S626_ENCMODE_COUNTER, crb.clkpolB, clkmult0)
  { intSrc := crb.intsrcB
    latchSrc := crb.latchsrc
    loadSrc := crb.loadsrcB
    indxPol := crb.indxpolB
    clkEnab := crb.clkenabB
    indxSrc := cra.indxsrcB
    encMode := emc.1
    clkPol := emc.2.1
    clkMult := emc.2.2 }

/-- `s626_set_mode_a` from s626.c: program the operating mode of an A
counter.  Returns the new register pair and the updated
`counter_int_enabs` mask (`chan` selects the counter's event bits).  The
CRA write keeps `IndxSrcB`/`CntSrcB`; the CRB write keeps everything
except the interrupt-control field and `ClkEnabA`. -/
def s626_set_mode_a (chan : Nat) (rs : CounterRegs) (enabs : Nat)
    (setup : StdSetup) (disable_int_src : Bool) : CounterRegs × Nat :=
  -- Initialize CRA and CRB images
  let craLoadsrcA := bits2 setup.loadSrc
  let craIndxsrcA := bits2 setup.indxSrc
  let crbIntctrl := S626_INTRESET_CMD_A
  let crbClkenabA := bits1 setup.clkEnab
  -- Force IntSrc to Disabled if disable_int_src is asserted
  let craIntsrcA := if ¬ disable_int_src then bits2 setup.intSrc else 0
  -- Populate all mode-dependent attributes of the CRA & CRB images
  let clkpol0 := bits1 setup.clkPol
  let ccm :=
    if bits2 setup.encMode = S626_ENCMODE_EXTENDER ∨
        bits2 setup.encMode = S626_ENCMODE_TIMER then
      -- Extender mode is forced to Timer mode (Extender is valid only
      -- for B counters); CntSrcA<1> selects the system clock, with the
      -- count direction (CntSrcA<0>) obtained from ClkPol
      (S626_CNTSRC_SYSCLK ||| clkpol0, 1, S626_CLKMULT_1X)
    else
      -- Counter mode; an illegal multiplier is forced to 1x
      (S626_CNTSRC_ENCODER, clkpol0,
        if bits2 setup.clkMult = S626_CLKMULT_SPECIAL then S626_CLKMULT_1X
        else bits2 setup.clkMult)
  -- Force positive index polarity if IndxSrc is software-driven only
  let craIndxpolA :=
    if bits2 setup.indxSrc ≠ S626_INDXSRC_SOFT then bits1 setup.indxPol else 0
  let enabs2 :=
    if disable_int_src then enabs &&& (0xffff ^^^ s626_event_bits chan 3)
    else enabs
  -- While retaining CounterB and LatchSrc configurations, program the
  -- new counter operating mode (field-wise view of the two
  -- s626_debi_replace calls)
  let cra2 : CRA :=
    { rs.cra with
      loadsrcA := craLoadsrcA, indxsrcA := craIndxsrcA,
      intsrcA := craIntsrcA, indxpolA := craIndxpolA,
      cntsrcA := ccm.1, clkpolA := ccm.2.1, clkmultA := ccm.2.2 }
  let crb2 : CRB :=
    { rs.crb with intctrl := crbIntctrl, clkenabA := crbClkenabA }
  ({ rs with cra := cra2, crb := crb2 }, enabs2)

/-- `s626_set_mode_b` from s626.c: program the operating mode of a B
counter.  The CRA write replaces only `IndxSrcB`/`CntSrcB`; the CRB write
keeps `ClkEnabA` and `LatchSrc` and replaces the rest. -/
def s626_set_mode_b (chan : Nat) (rs : CounterRegs) (enabs : Nat)
    (setup : StdSetup) (disable_int_src : Bool) : CounterRegs × Nat :=
  -- Initialize CRA and CRB images
  let craIndxsrcB := bits2 setup.indxSrc
  let crbIntctrl := S626_INTRESET_CMD_B
  let crbClkenabB := bits1 setup.clkEnab
  let crbLoadsrcB := bits2 setup.loadSrc
  -- Force IntSrc to Disabled if disable_int_src is asserted
  let crbIntsrcB := if ¬ disable_int_src then bits2 setup.intSrc else 0
  -- Populate all mode-dependent attributes of the CRA & CRB images
  let clkpol0 := bits1 setup.clkPol
  let ccm :=
    if bits2 setup.encMode = S626_ENCMODE_TIMER then
      -- Timer mode: system clock, direction from ClkPol, ClkPolB acts as
      -- an always-on clock enable, multiplier must be 1x
      (S626_CNTSRC_SYSCLK ||| clkpol0, 1, S626_CLKMULT_1X)
    else if bits2 setup.encMode = S626_ENCMODE_EXTENDER then
      -- Extender mode: ClkMultB = SPECIAL selects OverflowA as clock
      (S626_CNTSRC_SYSCLK ||| clkpol0, 1, S626_CLKMULT_SPECIAL)
    else
      -- Counter mode; an illegal multiplier is forced to 1x
      (S626_CNTSRC_ENCODER, clkpol0,
        if bits2 setup.clkMult = S626_CLKMULT_SPECIAL then S626_CLKMULT_1X
        else bits2 setup.clkMult)
  -- Force positive index polarity if IndxSrc is software-driven only
  let crbIndxpolB :=
    if bits2 setup.indxSrc ≠ S626_INDXSRC_SOFT then bits1 setup.indxPol else 0
  let enabs2 :=
    if disable_int_src then enabs &&& (0xffff ^^^ s626_event_bits chan 3)
    else enabs
  -- While retaining CounterA and LatchSrc configurations, program the
  -- new counter operating mode
  let cra2 : CRA := { rs.cra with indxsrcB := craIndxsrcB, cntsrcB := ccm.1 }
  let crb2 : CRB :=
    { rs.crb with
      intctrl := crbIntctrl, loadsrcB := crbLoadsrcB, intsrcB := crbIntsrcB,
      clkenabB := crbClkenabB, indxpolB := crbIndxpolB,
      clkpolB := ccm.2.1, clkmultB := ccm.2.2 }
  ({ rs with cra := cra2, crb := crb2 }, enabs2)

/-- The counter descriptor table's variant dispatch: `s626_enc_chan_info`
binds counters 0–2 to the A-variant operations and 3–5 to the B-variant
operations. -/
def s626_counter_is_a (chan : Fin 6) : Bool := chan.val < 3

/-- Variant dispatch of `get_mode` through the descriptor table. -/
def s626_get_mode (chan : Fin 6) (rs : CounterRegs) : StdSetup :=
  if s626_counter_is_a chan then s626_get_mode_a rs else s626_get_mode_b rs

/-- Variant dispatch of `set_mode` through the descriptor table. -/
def s626_set_mode (chan : Fin 6) (rs : CounterRegs) (enabs : Nat)
    (setup : StdSetup) (disable_int_src : Bool) : CounterRegs × Nat :=
  if s626_counter_is_a chan then
    s626_set_mode_a chan.val rs enabs setup disable_int_src
  else
    s626_set_mode_b chan.val rs enabs setup disable_int_src

/-- Programming a mode and immediately reading it back through the
descriptor table (the scenario of the round-trip invariant), with
interrupts not suppressed. -/
def s626_mode_readback (chan : Fin 6) (rs : CounterRegs) (enabs : Nat)
    (setup : StdSetup) : StdSetup :=
  s626_get_mode chan (s626_set_mode chan rs enabs setup false).1

/-- C1 counterexample: the claim says `set_mode` / `get_mode` round-trips
every standardized field except for clock-multiplier normalization and the
B-counter Extender synthesis.  On counter 0 (an A counter, so no Extender
synthesis) with a legal 1x clock multiplier, programming a mode whose
latch-source is 0 over registers whose latch-source field holds 1 reads
back latch-source 1: `set_mode` never programs the latch-source field (its
CRB write keeps `S626_CRBMSK_LATCHSRC`), so the field is not reproduced. -/
theorem s626_mode_roundtrip_counterexample :
    (s626_counter_is_a 0 = true) ∧
    (StdSetup.mk 0 0 0 0 0 0 S626_CLKMULT_1X 0 S626_ENCMODE_COUNTER).clkMult =
      S626_CLKMULT_1X ∧
    (s626_mode_readback 0
        (CounterRegs.mk (CRA.mk 0 0 0 0 0 0 0 0 0) (CRB.mk 0 1 0 0 0 0 0 0 0) 0 0)
        0
        (StdSetup.mk 0 0 0 0 0 0 S626_CLKMULT_1X 0 S626_ENCMODE_COUNTER)).latchSrc
      ≠ (StdSetup.mk 0 0 0 0 0 0 S626_CLKMULT_1X 0 S626_ENCMODE_COUNTER).latchSrc := by
  refine ⟨rfl, rfl, ?_⟩
  decide

/-- C1 (amended): for every counter and every in-range standardized mode
word, programming with `set_mode` (interrupts not suppressed) and
immediately reading back with `get_mode` reproduces load-source,
interrupt-source, index-source and clock-enable exactly; clock-polarity is
reproduced in every encoding mode (for Timer/Extender it is re-derived
from the programmed count direction, which equals the programmed
polarity); latch-source is NOT programmed — the readback reports the
register's prior latch-source field; index-polarity reads back as
programmed unless the index source is the software source, in which case
it is forced positive (0); the clock multiplier reads back as programmed
in Counter mode except that the illegal value normalizes to 1x, and reads
back 1x in Timer and Extender modes; the encoding mode reads back as
programmed except that A counters collapse Extender to Timer. -/
theorem s626_mode_roundtrip (chan : Fin 6) (rs : CounterRegs) (enabs : Nat)
    (setup : StdSetup)
    (hload : setup.loadSrc < 4) (hint : setup.intSrc < 4)
    (hindx : setup.indxSrc < 4) (hipol : setup.indxPol < 2)
    (hcen : setup.clkEnab < 2) (hmult : setup.clkMult < 4)
    (hpol : setup.clkPol < 2)
    (henc : setup.encMode = S626_ENCMODE_COUNTER ∨
      setup.encMode = S626_ENCMODE_TIMER ∨
      setup.encMode = S626_ENCMODE_EXTENDER) :
    (s626_mode_readback chan rs enabs setup).loadSrc = setup.loadSrc ∧
    (s626_mode_readback chan rs enabs setup).intSrc = setup.intSrc ∧
    (s626_mode_readback chan rs enabs setup).indxSrc = setup.indxSrc ∧
    (s626_mode_readback chan rs enabs setup).clkEnab = setup.clkEnab ∧
    (s626_mode_readback chan rs enabs setup).latchSrc = rs.crb.latchsrc ∧
    (s626_mode_readback chan rs enabs setup).indxPol =
      (if setup.indxSrc = S626_INDXSRC_SOFT then 0 else setup.indxPol) ∧
    (s626_mode_readback chan rs enabs setup).clkPol = setup.clkPol ∧
    (s626_mode_readback chan rs enabs setup).clkMult =
      (if setup.encMode = S626_ENCMODE_COUNTER then
        (if setup.clkMult = S626_CLKMULT_SPECIAL then S626_CLKMULT_1X
         else setup.clkMult)
       else S626_CLKMULT_1X) ∧
    (s626_mode_readback chan rs enabs setup).encMode =
      (if setup.encMode = S626_ENCMODE_EXTENDER ∧ s626_counter_is_a chan then
        S626_ENCMODE_TIMER
       else setup.encMode) := by
  obtain ⟨ls, lt, isrc, ix, ip, ce, cm, cp, em⟩ := setup
  simp only at hload hint hindx hipol hcen hmult hpol henc
  cases hA : s626_counter_is_a chan <;>
    rcases henc with rfl | rfl | rfl <;>
    interval_cases cp <;>
    interval_cases cm <;>
    simp [s626_mode_readback, s626_get_mode, s626_set_mode, hA,
      s626_get_mode_a, s626_get_mode_b, s626_set_mode_a, s626_set_mode_b,
      bits1, bits2, Nat.mod_eq_of_lt, hload, hint, hindx, hipol, hcen,
      S626_ENCMODE_COUNTER, S626_ENCMODE_TIMER, S626_ENCMODE_EXTENDER,
      S626_CLKMULT_1X, S626_CLKMULT_SPECIAL, S626_CNTSRC_SYSCLK,
      S626_CNTSRC_ENCODER, S626_INDXSRC_SOFT]

/-- Witness for the amended C1 round-trip theorem at a concrete counter,
register state and mode word (B counter 4, Extender mode, software index
source). -/
theorem s626_mode_roundtrip_witness :
    ((1 : Nat) < 4 ∧ (2 : Nat) < 4 ∧ (1 : Nat) < 4 ∧ (1 : Nat) < 2 ∧
      (1 : Nat) < 2 ∧ (0 : Nat) < 4 ∧ (1 : Nat) < 2) ∧
    ((s626_mode_readback 4
        (CounterRegs.mk (CRA.mk 1 2 3 1 0 1 1 2 0) (CRB.mk 5 2 1 3 1 0 1 0 1) 7 9)
        0 (StdSetup.mk 1 3 2 1 1 1 0 1 S626_ENCMODE_EXTENDER)).loadSrc = 1 ∧
      (s626_mode_readback 4
        (CounterRegs.mk (CRA.mk 1 2 3 1 0 1 1 2 0) (CRB.mk 5 2 1 3 1 0 1 0 1) 7 9)
        0 (StdSetup.mk 1 3 2 1 1 1 0 1 S626_ENCMODE_EXTENDER)).latchSrc = 2 ∧
      (s626_mode_readback 4
        (CounterRegs.mk (CRA.mk 1 2 3 1 0 1 1 2 0) (CRB.mk 5 2 1 3 1 0 1 0 1) 7 9)
        0 (StdSetup.mk 1 3 2 1 1 1 0 1 S626_ENCMODE_EXTENDER)).indxPol = 0 ∧
      (s626_mode_readback 4
        (CounterRegs.mk (CRA.mk 1 2 3 1 0 1 1 2 0) (CRB.mk 5 2 1 3 1 0 1 0 1) 7 9)
        0 (StdSetup.mk 1 3 2 1 1 1 0 1 S626_ENCMODE_EXTENDER)).clkMult =
        S626_CLKMULT_1X ∧
      (s626_mode_readback 4
        (CounterRegs.mk (CRA.mk 1 2 3 1 0 1 1 2 0) (CRB.mk 5 2 1 3 1 0 1 0 1) 7 9)
        0 (StdSetup.mk 1 3 2 1 1 1 0 1 S626_ENCMODE_EXTENDER)).clkPol = 1 ∧
      (s626_mode_readback 4
        (CounterRegs.mk (CRA.mk 1 2 3 1 0 1 1 2 0) (CRB.mk 5 2 1 3 1 0 1 0 1) 7 9)
        0 (StdSetup.mk 1 3 2 1 1 1 0 1 S626_ENCMODE_EXTENDER)).encMode =
        S626_ENCMODE_EXTENDER) := by
  constructor
  · decide
  · have h := s626_mode_roundtrip 4
      (CounterRegs.mk (CRA.mk 1 2 3 1 0 1 1 2 0) (CRB.mk 5 2 1 3 1 0 1 0 1) 7 9)
      0 (StdSetup.mk 1 3 2 1 1 1 0 1 S626_ENCMODE_EXTENDER)
      (by decide) (by decide) (by decide) (by decide) (by decide) (by decide)
      (by decide) (Or.inr (Or.inr rfl))
    obtain ⟨h1, _, _, _, h5, h6, h7, h8, h9⟩ := h
    refine ⟨h1, h5, ?_, ?_, h7, ?_⟩
    · rw [h6]; decide
    · rw [h8]; decide
    · rw [h9]; decide

/-! ## Index pulse (`s626_pulse_index_a/b`) -/

/-- `s626_pulse_index_a` from s626.c: read CRA, write it back with the
index-polarity bit toggled (`cra ^ S626_CRAMSK_INDXPOL_A`), then write the
original value.  First component: the two CRA values written, in order;
second component: the final register state. -/
def s626_pulse_index_a (rs : CounterRegs) : List CRA × CounterRegs :=
  let cra := rs.cra
  ([{ cra with indxpolA := cra.indxpolA ^^^ 1 }, cra], { rs with cra := cra })

/-- `s626_pulse_index_b` from s626.c: read CRB, mask off the write-only
interrupt-control field, write the image with the index-polarity bit
toggled (`crb ^ S626_CRBMSK_INDXPOL_B`), then write the image itself. -/
def s626_pulse_index_b (rs : CounterRegs) : List CRB × CounterRegs :=
  let crb := { rs.crb with intctrl := 0 }
  ([{ crb with indxpolB := crb.indxpolB ^^^ 1 }, crb], { rs with crb := crb })

/-- Variant dispatch of `pulse_index` through the descriptor table (final
register state). -/
def s626_pulse_index (chan : Fin 6) (rs : CounterRegs) : CounterRegs :=
  if s626_counter_is_a chan then (s626_pulse_index_a rs).2
  else (s626_pulse_index_b rs).2

/-- C9 counterexample: on a B counter (counter 3) whose CRB holds a nonzero
interrupt-control field value, the index pulse does not leave every other
field of the control registers unchanged — the write-only INTCTRL field of
CRB is written back as 0. -/
theorem s626_pulse_index_counterexample :
    (s626_counter_is_a 3 = false) ∧
    (s626_pulse_index 3
        (CounterRegs.mk (CRA.mk 0 0 0 0 0 0 0 0 0) (CRB.mk 4 0 0 0 0 0 0 0 0) 0 0)).crb.intctrl
      ≠ (CRB.mk 4 0 0 0 0 0 0 0 0).intctrl := by
  exact ⟨rfl, by decide⟩

/-- C9 (amended): for every counter, the index pulse writes the control
register with exactly the index-polarity bit toggled and then restores it;
the final state preserves CRA, the preload registers and every CRB field,
except that the B variant writes CRB back with the write-only
interrupt-reset command field (INTCTRL) cleared to 0 instead of preserved
(the A variant restores both registers exactly). -/
theorem s626_pulse_index_preserves (chan : Fin 6) (rs : CounterRegs) :
    (s626_pulse_index chan rs).preloadLow = rs.preloadLow ∧
    (s626_pulse_index chan rs).preloadHigh = rs.preloadHigh ∧
    (s626_pulse_index chan rs).cra = rs.cra ∧
    (s626_pulse_index chan rs).crb.latchsrc = rs.crb.latchsrc ∧
    (s626_pulse_index chan rs).crb.loadsrcB = rs.crb.loadsrcB ∧
    (s626_pulse_index chan rs).crb.intsrcB = rs.crb.intsrcB ∧
    (s626_pulse_index chan rs).crb.clkenabA = rs.crb.clkenabA ∧
    (s626_pulse_index chan rs).crb.clkenabB = rs.crb.clkenabB ∧
    (s626_pulse_index chan rs).crb.indxpolB = rs.crb.indxpolB ∧
    (s626_pulse_index chan rs).crb.clkpolB = rs.crb.clkpolB ∧
    (s626_pulse_index chan rs).crb.clkmultB = rs.crb.clkmultB ∧
    (s626_pulse_index chan rs).crb.intctrl =
      (if s626_counter_is_a chan then rs.crb.intctrl else 0) ∧
    (if s626_counter_is_a chan then
      (s626_pulse_index_a rs).1 =
        [{ rs.cra with indxpolA := rs.cra.indxpolA ^^^ 1 }, rs.cra]
     else
      (s626_pulse_index_b rs).1 =
        [{ rs.crb with intctrl := 0, indxpolB := rs.crb.indxpolB ^^^ 1 },
         { rs.crb with intctrl := 0 }]) := by
  cases hA : s626_counter_is_a chan <;>
    simp [s626_pulse_index, s626_pulse_index_a, s626_pulse_index_b, hA]

/-! ## The streaming command and the poll list -/

/-- The comedi streaming command (`struct comedi_cmd`) fields the driver
uses: five trigger source/argument pairs, the flags word, and the channel
list with its length.  The channel list array is modelled as a total
function from index to packed chanspec.  Modelled from the spec (§3
AcquisitionCommand): the struct is declared by the comedi framework
headers, not under `src/`. -/
structure comedi_cmd where
  start_src : Nat
  start_arg : Nat
  scan_begin_src : Nat
  scan_begin_arg : Nat
  convert_src : Nat
  convert_arg : Nat
  scan_end_src : Nat
  scan_end_arg : Nat
  stop_src : Nat
  stop_arg : Nat
  chanlist_len : Nat
  chanlist : Nat → Nat
  flags : Nat

/-- Modelled from the spec: poll-list item bits, per the item format
documented in s626.c ("(EOPL,x,x,RANGE,CHAN<3:0>)"): end-of-poll-list
marker bit 7, range bit 4 (1 = ±5 V, 0 = ±10 V).  The numeric defines are
in `s626.h`, not under `src/`. -/
def S626_EOPL : Nat := 0x80
def S626_RANGE_5V : Nat := 0x10
def S626_RANGE_10V : Nat := 0x00

/-- `s626_ai_load_polllist` from s626.c: for each of the command's
`chanlist_len` channels write one poll-list byte (channel number ORed with
the range bit) into the caller's buffer at index `n`, then OR the
end-of-poll-list flag into the last written entry (`ppl[n - 1]`, guarded
by `n != 0`).  No bound check is performed against the buffer.  Result:
the updated buffer, the ordered list of indices written (indices
`0..chanlist_len-1` from the loop, then index `chanlist_len-1` again for
the end-flag OR), and the C return value `n = chanlist_len`. -/
def s626_ai_load_polllist (ppl : Nat → Nat) (cmd : comedi_cmd) :
    (Nat → Nat) × List Nat × Nat :=
  let entry := fun n =>
    if CR_RANGE (cmd.chanlist n) = 0 then
      CR_CHAN (cmd.chanlist n) ||| S626_RANGE_5V
    else
      CR_CHAN (cmd.chanlist n) ||| S626_RANGE_10V
  let n := cmd.chanlist_len
  -- the write loop: buffer index i < n holds entry i, others keep ppl i
  let ppl1 := fun i => if i < n then entry i else ppl i
  -- if (n != 0) ppl[n - 1] |= S626_EOPL
  let ppl2 :=
    if n ≠ 0 then fun i => if i = n - 1 then ppl1 i ||| S626_EOPL else ppl1 i
    else ppl1
  (ppl2, List.range n ++ (if n ≠ 0 then [n - 1] else []), n)

/-! ## The RPS program compiler (`s626_reset_adc`)

The instruction words written into the RPS DMA buffer are modelled one C
`*rps++` store per list element.  Opcode words become constructors of
`RpsWord`; operand words (immediate data / jump targets / DMA addresses)
become `RpsWord.data`.  Modelled from the spec: the numeric opcode
encodings and register addresses are `s626.h` constants (not under
`src/`); only their identity matters to the claims, which compare counts
and sequences. -/

inductive RpsWord where
  | pause (sig : Nat)
  | clrsignal (sig : Nat)
  | upload (sig : Nat)
  | ldreg (reg : Nat)
  | streg (reg : Nat)
  | jump
  | nop
  | irq
  | data (v : Nat)
deriving DecidableEq

/-- Modelled from the spec: RPS signal selectors and register addresses
used by the compiled program (values stand in for the `s626.h` encodings;
the driver only combines and compares them). -/
def S626_RPS_SIGADC : Nat := 1
def S626_RPS_DEBI : Nat := 2
def S626_RPS_GPIO2 : Nat := 3
def S626_P_DEBICMD : Nat := 0x84
def S626_P_DEBIAD : Nat := 0x88
def S626_P_GPIO : Nat := 0x40
def S626_P_FB_BUFFER1 : Nat := 0x144
def S626_LP_GSEL : Nat := 0x04
def S626_LP_ISEL : Nat := 0x06
def S626_DEBI_CMD_WRWORD : Nat := 0x00040000
def S626_GSEL_BIPOLAR5V : Nat := 0x10
def S626_GSEL_BIPOLAR10V : Nat := 0x00
def S626_GPIO_BASE : Nat := 0x10004000
def S626_GPIO1_LO : Nat := 0x00000000
def S626_GPIO1_HI : Nat := 0x00001000

/-- Modelled from the spec: RPS clock ticks per microsecond (`s626.h`),
used to size the settling/stabilization delays. -/
def S626_RPSCLK_PER_US : Nat := 4

/-- `S626_BUGFIX_STREG` from s626.c line 194. -/
def S626_BUGFIX_STREG (regadrs : Nat) : Nat := regadrs - 4

/-- The settling-delay emitter inside `s626_reset_adc`'s poll loop: `count`
repetitions of an `S626_RPS_JUMP` to the immediately following instruction
(each jump flushes the RPS prefetch pipeline).  `pos` is the number of
32-bit words already emitted before this loop, so the running jump target
`jmp_adrs` starts at `rps_base + 4 * pos` and is advanced by 8 bytes
before each two-word jump is stored. -/
def s626_rps_delay_jumps (rps_base pos count : Nat) : List RpsWord :=
  (List.range count).flatMap fun i =>
    [RpsWord.jump, RpsWord.data (rps_base + 4 * pos + 8 * (i + 1))]

/-- One poll-list slot of the RPS program built by `s626_reset_adc`:
program the ADC gain, select the channel, wait ≥10 µs for analog settling
(jump-pair padding), optionally wait for the convert trigger signal, pulse
the ADC start line low-then-high, wait for ADC-done (GPIO2), and store the
captured word to the slot's DMA address `ana_base + (adc_items << 2)`. -/
def s626_adc_slot (cmd : Option comedi_cmd) (item : Nat)
    (rps_base ana_base adc_items pos : Nat) : List RpsWord :=
  -- Convert the poll list item to private board class format
  let local_ppl := (item <<< 8) |||
    (if item &&& 0x10 ≠ 0 then S626_GSEL_BIPOLAR5V else S626_GSEL_BIPOLAR10V)
  -- Switch ADC analog gain
  let gain : List RpsWord :=
    [.ldreg (S626_P_DEBICMD >>> 2), .data (S626_DEBI_CMD_WRWORD ||| S626_LP_GSEL),
     .ldreg (S626_P_DEBIAD >>> 2), .data local_ppl,
     .clrsignal S626_RPS_DEBI, .upload S626_RPS_DEBI, .pause S626_RPS_DEBI]
  -- Select ADC analog input channel
  let isel : List RpsWord :=
    [.ldreg (S626_P_DEBICMD >>> 2), .data (S626_DEBI_CMD_WRWORD ||| S626_LP_ISEL),
     .ldreg (S626_P_DEBIAD >>> 2), .data local_ppl,
     .clrsignal S626_RPS_DEBI, .upload S626_RPS_DEBI, .pause S626_RPS_DEBI]
  -- Delay at least 10 microseconds for analog input settling
  let delay := s626_rps_delay_jumps rps_base (pos + gain.length + isel.length)
    (10 * S626_RPSCLK_PER_US / 2)
  -- Wait for the convert trigger unless conversions are immediate
  let trig : List RpsWord :=
    match cmd with
    | some c =>
      if c.convert_src ≠ TRIG_NOW then
        [.pause S626_RPS_SIGADC, .clrsignal S626_RPS_SIGADC]
      else []
    | none => []
  -- Start ADC by pulsing GPIO1 low then high (stretched by a NOP)
  let pulse : List RpsWord :=
    [.ldreg ( S626_P_GPIO >>> 2), .data (S626_GPIO_BASE ||| S626_GPIO1_LO),
     .nop,
     .ldreg ( S626_P_GPIO >>> 2), .data (S626_GPIO_BASE ||| S626_GPIO1_HI)]
  -- Wait for ADC done, then transfer the captured word to the DMA slot
  let store : List RpsWord :=
    [.pause S626_RPS_GPIO2,
     .streg (S626_BUGFIX_STREG S626_P_FB_BUFFER1 >>> 2),
     .data (ana_base + (adc_items <<< 2))]
  gain ++ isel ++ delay ++ trig ++ pulse ++ store

/-- The slot-emission loop of `s626_reset_adc`: digitize poll-list slots
until a slot's end-of-poll-list flag is set or 16 slots have been emitted
(`for (adc_items = 0; adc_items < 16; adc_items++) { ...; if (*ppl++ &
S626_EOPL) { adc_items++; break; } }`).  Arguments after the bases:
remaining iterations (`16 - adc_items`), current `adc_items`, words
already emitted.  Returns the emitted words and the final `adc_items`. -/
def s626_adc_poll_loop (cmd : Option comedi_cmd) (ppl : Nat → Nat)
    (rps_base ana_base : Nat) : Nat → Nat → Nat → List RpsWord × Nat
  | 0, adc_items, _pos => ([], adc_items)
  | fuel + 1, adc_items, pos =>
    let item := ppl adc_items
    let slot := s626_adc_slot cmd item rps_base ana_base adc_items pos
    if item &&& S626_EOPL ≠ 0 then (slot, adc_items + 1)
    else
      let rest := s626_adc_poll_loop cmd ppl rps_base ana_base fuel
        (adc_items + 1) (pos + slot.length)
      (slot ++ rest.1, rest.2)

/-- `s626_reset_adc` from s626.c as a pure program builder: the full RPS
program (optional start-trigger wait, the SAA7146 dummy-DEBI-write
workaround, the poll-list slots, the ≥2 µs NOP stabilization delay, the
dummy conversion that flushes the one-stage shift pipeline, the
conditional interrupt, and the loop-back jump) together with the final
`adc_items` count. -/
def s626_reset_adc_program (cmd : Option comedi_cmd) (ppl : Nat → Nat)
    (ai_cmd_running : Bool) (rps_base ana_base : Nat) :
    List RpsWord × Nat :=
  -- Wait for the start trigger if scans are externally paced
  let startWait : List RpsWord :=
    match cmd with
    | some c =>
      if c.scan_begin_src ≠ TRIG_FOLLOW then
        [.pause S626_RPS_SIGADC, .clrsignal S626_RPS_SIGADC]
      else []
    | none => []
  -- SAA7146 bug workaround: dummy DEBI write to the gain register
  let workaround : List RpsWord :=
    [.ldreg (S626_P_DEBICMD >>> 2), .data (S626_DEBI_CMD_WRWORD ||| S626_LP_GSEL),
     .ldreg (S626_P_DEBIAD >>> 2), .data S626_GSEL_BIPOLAR5V,
     .clrsignal S626_RPS_DEBI, .upload S626_RPS_DEBI, .pause S626_RPS_DEBI]
  -- Digitize all slots in the poll list (at most 16)
  let lp := s626_adc_poll_loop cmd ppl rps_base ana_base 16 0
    (startWait.length + workaround.length)
  -- Allow the ADC to stabilize for 2 microseconds (NOP padding)
  let nops : List RpsWord := List.replicate (2 * S626_RPSCLK_PER_US) .nop
  -- Start a dummy conversion to shift in the last real sample
  let dummy : List RpsWord :=
    [.ldreg ( S626_P_GPIO >>> 2), .data (S626_GPIO_BASE ||| S626_GPIO1_LO),
     .nop,
     .ldreg ( S626_P_GPIO >>> 2), .data (S626_GPIO_BASE ||| S626_GPIO1_HI),
     .pause S626_RPS_GPIO2,
     .streg (S626_BUGFIX_STREG S626_P_FB_BUFFER1 >>> 2),
     .data (ana_base + (lp.2 <<< 2))]
  -- Invoke an interrupt if a streaming command is running
  let irqWord : List RpsWord := if ai_cmd_running then [.irq] else []
  -- Branch back to the start of the RPS program
  let loopback : List RpsWord := [.jump, .data rps_base]
  (startWait ++ workaround ++ lp.1 ++ nops ++ dummy ++ irqWord ++ loopback,
   lp.2)

/-- A value below 128 has the end-of-poll-list bit clear. -/
theorem eopl_clear_of_lt {x : Nat} (h : x < 128) : x &&& S626_EOPL = 0 := by
  have h7 : x.testBit 7 = false := Nat.testBit_lt_two_pow h
  apply Nat.eq_of_testBit_eq
  intro i
  simp only [Nat.testBit_and, Nat.zero_testBit]
  rcases eq_or_ne i 7 with rfl | hne
  · simp [S626_EOPL, h7]
  · have h128 : (S626_EOPL : Nat).testBit i = false := by
      rw [show S626_EOPL = 2 ^ 7 from rfl, Nat.testBit_two_pow]
      simp [Ne.symm hne]
    simp [h128]

/-- ORing in the end-of-poll-list bit sets it. -/
theorem eopl_set_of_or (x : Nat) : (x ||| S626_EOPL) &&& S626_EOPL ≠ 0 := by
  intro h0
  have h := congrArg (fun n => Nat.testBit n 7) h0
  simp only [Nat.testBit_and, Nat.testBit_or, Nat.zero_testBit] at h
  rw [show S626_EOPL = 2 ^ 7 from rfl, Nat.testBit_two_pow] at h
  simp at h

/-- A poll-list byte built from a channel below 16 is below 128 (the range
bit is at most 0x10). -/
theorem polllist_entry_lt {c r : Nat} (hc : c < 16) (hr : r ≤ 16) :
    c ||| r < 128 := by
  have : c ||| r < 32 := Nat.or_lt_two_pow (n := 5) (by omega) (by omega)
  omega

/-- If none of the next `fuel` poll-list entries has the end flag set, the
slot loop runs through all of them. -/
theorem s626_adc_poll_loop_full (cmd : Option comedi_cmd) (ppl : Nat → Nat)
    (rps_base ana_base : Nat) :
    ∀ (fuel idx pos : Nat),
      (∀ j, idx ≤ j → j < idx + fuel → ppl j &&& S626_EOPL = 0) →
      (s626_adc_poll_loop cmd ppl rps_base ana_base fuel idx pos).2 =
        idx + fuel := by
  intro fuel
  induction fuel with
  | zero => intro idx pos _; simp [s626_adc_poll_loop]
  | succ n ih =>
    intro idx pos hclear
    rw [s626_adc_poll_loop]
    rw [if_neg (by simpa using hclear idx (le_refl idx) (by omega))]
    simp only
    rw [ih (idx + 1) _ (fun j h1 h2 => hclear j (by omega) (by omega))]
    omega

/-- If the poll-list entries before index `k` have the end flag clear and
entry `k` has it set, the slot loop stops after emitting slot `k`. -/
theorem s626_adc_poll_loop_stop (cmd : Option comedi_cmd) (ppl : Nat → Nat)
    (rps_base ana_base : Nat) :
    ∀ (fuel idx pos k : Nat), idx ≤ k → k < idx + fuel →
      (∀ j, idx ≤ j → j < k → ppl j &&& S626_EOPL = 0) →
      ppl k &&& S626_EOPL ≠ 0 →
      (s626_adc_poll_loop cmd ppl rps_base ana_base fuel idx pos).2 =
        k + 1 := by
  intro fuel
  induction fuel with
  | zero => intro idx pos k h1 h2; omega
  | succ n ih =>
    intro idx pos k h1 h2 hclear hstop
    rw [s626_adc_poll_loop]
    rcases eq_or_ne idx k with rfl | hne
    · rw [if_pos (by simpa using hstop)]
    · rw [if_neg (by simpa using hclear idx (le_refl idx) (by omega))]
      simp only
      exact ih (idx + 1) _ k (by omega) (by omega)
        (fun j ha hb => hclear j (by omega) hb) hstop

/-- C5: a 3-channel list loads exactly 3 poll-list entries with the
end-of-list flag set only on the last, leaves the rest of the buffer
untouched, and the RPS compiler emits exactly 3 conversion slots for it
(stopping at the end flag); a 20-channel request is truncated by the
compiler to 16 conversion slots (the loop stops at the end flag or after
16 entries, whichever comes first). -/
theorem s626_polllist_spec :
    (∀ (ppl : Nat → Nat) (cmd : comedi_cmd) (rps_base ana_base pos : Nat),
      cmd.chanlist_len = 3 →
      (∀ i, i < 3 → CR_CHAN (cmd.chanlist i) < 16) →
      (s626_ai_load_polllist ppl cmd).2.2 = 3 ∧
      (s626_ai_load_polllist ppl cmd).1 0 &&& S626_EOPL = 0 ∧
      (s626_ai_load_polllist ppl cmd).1 1 &&& S626_EOPL = 0 ∧
      (s626_ai_load_polllist ppl cmd).1 2 &&& S626_EOPL ≠ 0 ∧
      (∀ i, 3 ≤ i → (s626_ai_load_polllist ppl cmd).1 i = ppl i) ∧
      (s626_adc_poll_loop (some cmd) (s626_ai_load_polllist ppl cmd).1
        rps_base ana_base 16 0 pos).2 = 3) ∧
    (∀ (ppl : Nat → Nat) (cmd : comedi_cmd) (rps_base ana_base pos : Nat),
      cmd.chanlist_len = 20 →
      (∀ i, i < 20 → CR_CHAN (cmd.chanlist i) < 16) →
      (s626_adc_poll_loop (some cmd) (s626_ai_load_polllist ppl cmd).1
        rps_base ana_base 16 0 pos).2 = 16) := by
  constructor
  · intro ppl cmd rps_base ana_base pos hlen hch
    have hentry : ∀ i, i < 3 →
        (if CR_RANGE (cmd.chanlist i) = 0 then
          CR_CHAN (cmd.chanlist i) ||| S626_RANGE_5V
         else CR_CHAN (cmd.chanlist i) ||| S626_RANGE_10V) &&& S626_EOPL = 0 := by
      intro i hi
      by_cases hr : CR_RANGE (cmd.chanlist i) = 0 <;>
        simp only [hr, if_true, if_false, reduceIte] <;>
        exact eopl_clear_of_lt
          (polllist_entry_lt (hch i hi) (by simp [S626_RANGE_5V, S626_RANGE_10V]))
    have hbuf : ∀ i, i < 3 → i ≠ 2 →
        (s626_ai_load_polllist ppl cmd).1 i &&& S626_EOPL = 0 := by
      intro i hi hne
      simp only [s626_ai_load_polllist, hlen]
      norm_num [hne, hi]
      exact hentry i hi
    refine ⟨by simp [s626_ai_load_polllist, hlen], hbuf 0 (by omega) (by omega),
      hbuf 1 (by omega) (by omega), ?_, ?_, ?_⟩
    · simp only [s626_ai_load_polllist, hlen]
      norm_num
      exact eopl_set_of_or _
    · intro i hi
      simp only [s626_ai_load_polllist, hlen]
      norm_num [show i ≠ 2 by omega, show ¬ i < 3 by omega]
    · refine s626_adc_poll_loop_stop _ _ _ _ 16 0 pos 2 (by omega) (by omega)
        (fun j h1 h2 => hbuf j (by omega) (by omega)) ?_
      simp only [s626_ai_load_polllist, hlen]
      norm_num
      exact eopl_set_of_or _
  · intro ppl cmd rps_base ana_base pos hlen hch
    have h := s626_adc_poll_loop_full (some cmd)
      (s626_ai_load_polllist ppl cmd).1 rps_base ana_base 16 0 pos ?_
    · simpa using h
    · intro j hj0 hj
      simp only [s626_ai_load_polllist, hlen]
      norm_num [show j ≠ 19 by omega, show j < 20 by omega]
      by_cases hr : CR_RANGE (cmd.chanlist j) = 0 <;>
        simp only [hr, if_true, if_false, reduceIte] <;>
        exact eopl_clear_of_lt
          (polllist_entry_lt (hch j (by omega))
            (by simp [S626_RANGE_5V, S626_RANGE_10V]))

/-- Witness for C5 at a concrete 3-channel command (channels 0, 1, 2,
range 0). -/
theorem s626_polllist_spec_witness :
    ((comedi_cmd.mk 0 0 0 0 0 0 0 0 0 0 3 (fun i => i) 0).chanlist_len = 3) ∧
    ((s626_ai_load_polllist (fun _ => 0)
        (comedi_cmd.mk 0 0 0 0 0 0 0 0 0 0 3 (fun i => i) 0)).2.2 = 3 ∧
      (s626_adc_poll_loop
        (some (comedi_cmd.mk 0 0 0 0 0 0 0 0 0 0 3 (fun i => i) 0))
        (s626_ai_load_polllist (fun _ => 0)
          (comedi_cmd.mk 0 0 0 0 0 0 0 0 0 0 3 (fun i => i) 0)).1
        0 0 16 0 0).2 = 3) := by
  have h := (s626_polllist_spec.1 (fun _ => 0)
    (comedi_cmd.mk 0 0 0 0 0 0 0 0 0 0 3 (fun i => i) 0) 0 0 0 rfl
    (by intro i hi; interval_cases i <;> decide))
  exact ⟨rfl, h.1, h.2.2.2.2.2⟩

/-! ## Device state

The driver's mutable state: `struct s626_private` fields used by the
acquisition engine, the modelled hardware registers (counter register
pairs, DIO banks, interrupt enable/status, the main-control enable bits
the driver toggles), and the observable output of the engine (samples
written to the comedi buffer, end-of-scan / end-of-acquisition events).
The armed command lives in `cmd` (the comedi core stores it in
`s->async->cmd` before calling the driver; the driver's `cmd == NULL`
checks can never fire because `&s->async->cmd` is the address of an
embedded struct).  `rdmisc2` and `capflg` are hardware-latched event
flags: inputs to the interrupt dispatchers, never set by the driver. -/

/-- One DIO bank's registers as last-written values: edge select,
interrupt select, capture enable, plus the hardware-latched capture
flags (`S626_LP_RDCAPFLG`). -/
structure DioGroup where
  edgsel : Nat
  intsel : Nat
  capsel : Nat
  capflg : Nat
deriving DecidableEq

/-- Modelled from the spec: interrupt cause/enable bits and MISC1 edge
capture commands (`s626.h`, not under `src/`).  The counter interrupt
bits coincide with the `S626_OVERMASK` positions used by `S626_EVBITS`. -/
def S626_IRQ_GPIO3 : Nat := 0x00000040
def S626_IRQ_RPS1 : Nat := 0x10000000
def S626_IRQ_COINT1A : Nat := 1 <<< 10
def S626_IRQ_COINT2A : Nat := 1 <<< 12
def S626_IRQ_COINT3A : Nat := 1 <<< 14
def S626_IRQ_COINT1B : Nat := 1 <<< 11
def S626_IRQ_COINT2B : Nat := 1 <<< 13
def S626_IRQ_COINT3B : Nat := 1 <<< 15
def S626_MISC1_EDCAP : Nat := 0x10000
def S626_MISC1_NOEDCAP : Nat := 0
def S626_DIO_BANKS : Nat := 3

/-- Reinterpret a C `int` value as the `unsigned int` bit pattern. -/
def u32_of_int (z : Int) : Nat := (z % 2 ^ 32).toNat

/-- Reinterpret a C `unsigned int` bit pattern as an `int` value. -/
def int_of_u32 (n : Nat) : Int :=
  if n % 2 ^ 32 < 2 ^ 31 then ((n % 2 ^ 32 : Nat) : Int)
  else ((n % 2 ^ 32 : Nat) : Int) - 2 ^ 32

/-- The acquisition engine's state: driver-private fields, modelled
hardware registers, and the engine's observable output. -/
structure S626State where
  counters : Fin 6 → CounterRegs
  counter_int_enabs : Nat
  ai_cmd_running : Bool
  ai_continuous : Bool
  ai_sample_count : Int
  ai_convert_count : Int
  adc_items : Nat
  rps_program : List RpsWord
  rpsaddr1 : Nat
  ier : Nat
  isr : Nat
  mc1_erps1 : Bool
  mc2_adc_rps : Bool
  misc1 : Nat
  dio : Nat → DioGroup
  rdmisc2 : Nat
  inttrig_armed : Bool
  cmd : comedi_cmd
  rps_base : Nat
  ana_base : Nat
  ana_buf : Nat → Nat
  published : List Nat
  events_eos : Nat
  events_eoa : Nat

/-- Update one counter's register pair. -/
def S626State.updCounter (st : S626State) (k : Fin 6)
    (f : CounterRegs → CounterRegs) : S626State :=
  { st with counters := Function.update st.counters k (f (st.counters k)) }

/-- Update one DIO bank. -/
def S626State.updDio (st : S626State) (g : Nat)
    (f : DioGroup → DioGroup) : S626State :=
  { st with dio := Function.update st.dio g (f (st.dio g)) }

/-! ## Counter operations on the device state

Each function is the field-wise reading of the corresponding
`s626_debi_replace`/`s626_debi_write` calls in s626.c (keep-mask ↦ fields
retained, write bits ↦ fields replaced). -/

/-- `s626_set_enable_a`/`_b`: replace the clock-enable field, clearing the
write-only interrupt-control field (the keep-mask excludes
`S626_CRBMSK_INTCTRL`). -/
def s626_set_enable (st : S626State) (k : Fin 6) (enab : Nat) : S626State :=
  if s626_counter_is_a k then
    st.updCounter k fun rs =>
      { rs with crb := { rs.crb with intctrl := 0, clkenabA := bits1 enab } }
  else
    st.updCounter k fun rs =>
      { rs with crb := { rs.crb with intctrl := 0, clkenabB := bits1 enab } }

/-- `s626_set_load_trig_a`/`_b`: program the preload trigger source. -/
def s626_set_load_trig (st : S626State) (k : Fin 6) (trig : Nat) : S626State :=
  if s626_counter_is_a k then
    st.updCounter k fun rs =>
      { rs with cra := { rs.cra with loadsrcA := bits2 trig } }
  else
    st.updCounter k fun rs =>
      { rs with crb := { rs.crb with intctrl := 0, loadsrcB := bits2 trig } }

/-- `s626_reset_cap_flags_a`/`_b`: issue the interrupt-reset command for
the counter's captured events (writes only the INTCTRL field). -/
def s626_reset_cap_flags (st : S626State) (k : Fin 6) : S626State :=
  if s626_counter_is_a k then
    st.updCounter k fun rs =>
      { rs with crb := { rs.crb with intctrl := S626_INTRESET_CMD_A } }
  else
    st.updCounter k fun rs =>
      { rs with crb := { rs.crb with intctrl := S626_INTRESET_CMD_B } }

/-- `s626_set_int_src_a`/`_b`: reset pending captures, program the counter
interrupt source, and update the process-wide MISC2 interrupt enable mask
through the descriptor's event-bit table.  For the B variant the second
register write stores the cached image (INTCTRL zeroed) with the new
IntSrcB, so the final INTCTRL field is 0. -/
def s626_set_int_src (st : S626State) (k : Fin 6) (int_source : Nat) :
    S626State :=
  let st :=
    if s626_counter_is_a k then
      let st := st.updCounter k fun rs =>
        { rs with crb := { rs.crb with intctrl := S626_INTRESET_CMD_A } }
      st.updCounter k fun rs =>
        { rs with cra := { rs.cra with intsrcA := bits2 int_source } }
    else
      st.updCounter k fun rs =>
        { rs with crb :=
          { rs.crb with intctrl := 0, intsrcB := bits2 int_source } }
  { st with counter_int_enabs :=
      (st.counter_int_enabs &&& (0xffff ^^^ s626_event_bits k.val 3)) |||
        s626_event_bits k.val int_source }

/-- `s626_set_latch_source`: program the latch source field (the keep-mask
excludes INTCTRL and LATCHSRC). -/
def s626_set_latch_source (st : S626State) (k : Fin 6) (value : Nat) :
    S626State :=
  st.updCounter k fun rs =>
    { rs with crb := { rs.crb with intctrl := 0, latchsrc := bits2 value } }

/-- `s626_preload`: write the 24-bit preload value as two 16-bit register
writes (low word at `my_latch_lsw`, high word at `my_latch_lsw + 2`). -/
def s626_preload_op (st : S626State) (k : Fin 6) (value : Nat) : S626State :=
  st.updCounter k fun rs =>
    { rs with preloadLow := value &&& 0xffff,
              preloadHigh := (value >>> 16) &&& 0xffff }

/-- The descriptor-table dispatch of the index pulse, as a state update. -/
def s626_pulse_index_op (st : S626State) (k : Fin 6) : S626State :=
  st.updCounter k fun rs => s626_pulse_index k rs

/-- The descriptor-table dispatch of `set_mode`, as a state update
(also updates `counter_int_enabs` when interrupts are suppressed). -/
def s626_set_mode_op (st : S626State) (k : Fin 6) (setup : StdSetup)
    (disable_int_src : Bool) : S626State :=
  let r := s626_set_mode k (st.counters k) st.counter_int_enabs setup
    disable_int_src
  let st := st.updCounter k fun _ => r.1
  { st with counter_int_enabs := r.2 }

/-! ## DIO interrupt plumbing -/

/-- `s626_dio_set_irq` from s626.c: select positive-edge capture, enable
the interrupt and edge capture for the given DIO channel (read-OR-write of
the bank's select registers, `S626_MISC1_EDCAP` command between). -/
def s626_dio_set_irq (st : S626State) (chan : Nat) : S626State :=
  let group := chan / 16
  let mask := 1 <<< (chan - 16 * group)
  let st := st.updDio group fun g => { g with edgsel := mask ||| g.edgsel }
  let st := st.updDio group fun g => { g with intsel := mask ||| g.intsel }
  let st := { st with misc1 := S626_MISC1_EDCAP }
  st.updDio group fun g => { g with capsel := mask ||| g.capsel }

/-- `s626_dio_reset_irq` from s626.c: disable the edge-capture write
command and write the given mask to the bank's capture select. -/
def s626_dio_reset_irq (st : S626State) (group mask : Nat) : S626State :=
  let st := { st with misc1 := S626_MISC1_NOEDCAP }
  st.updDio group fun g => { g with capsel := mask }

/-- `s626_dio_clear_irq` from s626.c: disable the edge-capture write
command and clear all pending DIO events in the `S626_DIO_BANKS = 3`
banks (loop unrolled). -/
def s626_dio_clear_irq (st : S626State) : S626State :=
  let st := { st with misc1 := S626_MISC1_NOEDCAP }
  let st := st.updDio 0 fun g => { g with capsel := 0xffff }
  let st := st.updDio 1 fun g => { g with capsel := 0xffff }
  st.updDio 2 fun g => { g with capsel := 0xffff }

/-! ## Timer configuration and the ADC reset -/

/-- `s626_timer_load` from s626.c: program the counter as an interval
timer (Timer encoding, preload on index, software index source, count
down, 1x multiplier, index-gated enable), set the preload register, force
a software index pulse to load it, then select reload-on-overflow,
interrupt-on-overflow, and the latch source. -/
def s626_timer_load (st : S626State) (k : Fin 6) (tick : Int) : S626State :=
  let setup : StdSetup :=
    { loadSrc := S626_LOADSRC_INDX
      latchSrc := 0
      intSrc := 0
      indxSrc := S626_INDXSRC_SOFT
      indxPol := 0
      clkEnab := S626_CLKENAB_INDEX
      clkMult := S626_CLKMULT_1X
      clkPol := S626_CNTDIR_DOWN
      encMode := S626_ENCMODE_TIMER }
  let st := s626_set_mode_op st k setup false
  -- Set the preload register (the int tick is stored as a uint32)
  let st := s626_preload_op st k (u32_of_int tick)
  -- Software index pulse loads the preload register into the counter
  let st := s626_set_load_trig st k 0
  let st := s626_pulse_index_op st k
  -- Set reload on counter overflow
  let st := s626_set_load_trig st k 1
  -- Set interrupt on overflow
  let st := s626_set_int_src st k S626_INTSRC_OVER
  s626_set_latch_source st k S626_LATCHSRC_A_INDXA

/-- `s626_reset_adc` from s626.c as a state transformer: stop the RPS
program, reload the RPS instruction pointer, and (re)build the program in
the DMA buffer, recording the new `adc_items`. -/
def s626_reset_adc (st : S626State) (cmd : Option comedi_cmd)
    (ppl : Nat → Nat) : S626State :=
  let st := { st with mc1_erps1 := false }
  let st := { st with rpsaddr1 := st.rps_base }
  let pr := s626_reset_adc_program cmd ppl st.ai_cmd_running st.rps_base
    st.ana_base
  { st with rps_program := pr.1, adc_items := pr.2 }

/-! ## Interrupt handling -/

/-- `s626_ai_reg_to_uint` from s626.c: convert a captured 32-bit hardware
word to a 14-bit sample centered by XOR with 0x2000. -/
def s626_ai_reg_to_uint (data : Nat) : Nat :=
  ((data >>> 18) &&& 0x3fff) ^^^ 0x2000

/-- `s626_handle_eos_interrupt` from s626.c: drain one scan from the ADC
DMA buffer (skipping the leading junk word left by the prior scan's final
conversion), publish the converted samples and an end-of-scan event,
decrement the remaining-scan count unless continuous, retire on zero
(clear the running flag, stop the RPS program, publish end-of-acquisition,
return `true` so the caller leaves the master interrupt disabled), and
re-arm the scan-begin DIO edge if still running with an external
scan-begin source.  The event and sample publications model
`cfc_write_to_buffer`, `async->events` and `comedi_event`. -/
def s626_handle_eos_interrupt (st : S626State) : S626State × Bool :=
  let cmd := st.cmd
  let scan := (List.range cmd.chanlist_len).map fun i =>
    s626_ai_reg_to_uint (st.ana_buf (1 + i))
  let st := { st with published := st.published ++ scan }
  let st := { st with events_eos := st.events_eos + 1 }
  let st :=
    if ¬ st.ai_continuous then
      { st with ai_sample_count := st.ai_sample_count - 1 }
    else st
  let r :=
    if st.ai_sample_count ≤ 0 then
      ({ st with ai_cmd_running := false, mc1_erps1 := false,
                 events_eoa := st.events_eoa + 1 }, true)
    else (st, false)
  let st := r.1
  let st :=
    if st.ai_cmd_running ∧ cmd.scan_begin_src = TRIG_EXT then
      s626_dio_set_irq st cmd.scan_begin_arg
    else st
  (st, r.2)

/-- `s626_handle_dio_interrupt` from s626.c: acknowledge the captured
edge, then (while a command runs) dispatch on which configured external
trigger fired: a start edge starts the RPS program (and arms the
scan-begin edge); a scan-begin edge triggers the ADC scan loop (and arms
the convert edge or enables the convert timer); a convert edge triggers
the scan loop and re-arms itself until the per-scan conversion count is
exhausted.  The C computes the shift count as unsigned subtraction
`arg - 16 * group`; it is modelled with the truncating `Nat` subtraction
(the two agree whenever the configured line lies in the bank that
captured the edge, the only case the comparison with 1 is meant to
match). -/
def s626_handle_dio_interrupt (st : S626State) (irqbit group : Nat) :
    S626State :=
  let st := s626_dio_reset_irq st group irqbit
  if st.ai_cmd_running then
    let cmd := st.cmd
    let st :=
      if irqbit >>> (cmd.start_arg - 16 * group) = 1 ∧
          cmd.start_src = TRIG_EXT then
        -- Start executing the RPS program
        let st := { st with mc1_erps1 := true }
        if cmd.scan_begin_src = TRIG_EXT then
          s626_dio_set_irq st cmd.scan_begin_arg
        else st
      else st
    let st :=
      if irqbit >>> (cmd.scan_begin_arg - 16 * group) = 1 ∧
          cmd.scan_begin_src = TRIG_EXT then
        -- Trigger ADC scan loop start
        let st := { st with mc2_adc_rps := true }
        let st :=
          if cmd.convert_src = TRIG_EXT then
            s626_dio_set_irq
              { st with ai_convert_count := int_of_u32 cmd.chanlist_len }
              cmd.convert_arg
          else st
        if cmd.convert_src = TRIG_TIMER then
          let st := { st with ai_convert_count := int_of_u32 cmd.chanlist_len }
          s626_set_enable st 5 S626_CLKENAB_ALWAYS
        else st
      else st
    if irqbit >>> (cmd.convert_arg - 16 * group) = 1 ∧
        cmd.convert_src = TRIG_EXT then
      -- Trigger ADC scan loop start
      let st : S626State := { st with mc2_adc_rps := true }
      let st : S626State :=
        { st with ai_convert_count := st.ai_convert_count - 1 }
      if st.ai_convert_count > 0 then s626_dio_set_irq st cmd.convert_arg
      else st
    else st
  else st

/-- `s626_check_dio_interrupts` from s626.c: scan the three DIO banks and
handle the first one with a pending captured edge (loop unrolled). -/
def s626_check_dio_interrupts (st : S626State) : S626State :=
  if (st.dio 0).capflg ≠ 0 then
    s626_handle_dio_interrupt st (st.dio 0).capflg 0
  else if (st.dio 1).capflg ≠ 0 then
    s626_handle_dio_interrupt st (st.dio 1).capflg 1
  else if (st.dio 2).capflg ≠ 0 then
    s626_handle_dio_interrupt st (st.dio 2).capflg 2
  else st

/-- `s626_check_counter_interrupts` from s626.c: for each counter whose
RDMISC2 event flag is set, reset its capture flags; counter 2B
additionally paces conversions (decrement the per-scan count, pause the
convert timer on exhaustion, retrigger the scan loop when timer-paced);
counter 3B paces scans (retrigger the scan loop when timer-paced and
restart the convert timer and count). -/
def s626_check_counter_interrupts (st : S626State) : S626State :=
  let irqbit := st.rdmisc2
  let st :=
    if irqbit &&& S626_IRQ_COINT1A ≠ 0 then s626_reset_cap_flags st 0 else st
  let st :=
    if irqbit &&& S626_IRQ_COINT2A ≠ 0 then s626_reset_cap_flags st 1 else st
  let st :=
    if irqbit &&& S626_IRQ_COINT3A ≠ 0 then s626_reset_cap_flags st 2 else st
  let st :=
    if irqbit &&& S626_IRQ_COINT1B ≠ 0 then s626_reset_cap_flags st 3 else st
  let st :=
    if irqbit &&& S626_IRQ_COINT2B ≠ 0 then
      let st := s626_reset_cap_flags st 4
      if st.ai_convert_count > 0 then
        let st := { st with ai_convert_count := st.ai_convert_count - 1 }
        let st :=
          if st.ai_convert_count = 0 then
            s626_set_enable st 4 S626_CLKENAB_INDEX
          else st
        if st.cmd.convert_src = TRIG_TIMER then
          { st with mc2_adc_rps := true }
        else st
      else st
    else st
  if irqbit &&& S626_IRQ_COINT3B ≠ 0 then
    let st := s626_reset_cap_flags st 5
    let st :=
      if st.cmd.scan_begin_src = TRIG_TIMER then
        { st with mc2_adc_rps := true }
      else st
    if st.cmd.convert_src = TRIG_TIMER then
      let st := { st with ai_convert_count := int_of_u32 st.cmd.chanlist_len }
      s626_set_enable st 4 S626_CLKENAB_ALWAYS
    else st
  else st

/-- `s626_irq_handler` from s626.c: save the interrupt-enable register,
mask the master interrupt, acknowledge the latched cause, dispatch on the
cause (`S626_IRQ_RPS1` → end-of-scan handling, which zeroes the saved
enable state when the acquisition retired; `S626_IRQ_GPIO3` → DIO and
counter dispatch), and restore the saved enable state. -/
def s626_irq_handler (st : S626State) (irqtype : Nat) : S626State :=
  let irqstatus := st.ier
  let st := { st with ier := 0 }
  let st := { st with isr := st.isr &&& (0xffffffff ^^^ irqtype % 2 ^ 32) }
  let r :=
    if irqtype = S626_IRQ_RPS1 then
      let er := s626_handle_eos_interrupt st
      (er.1, if er.2 then 0 else irqstatus)
    else if irqtype = S626_IRQ_GPIO3 then
      (s626_check_counter_interrupts (s626_check_dio_interrupts st),
        irqstatus)
    else (st, irqstatus)
  { r.1 with ier := r.2 }

/-! ## Arm, software trigger, cancel -/

/-- `s626_ai_inttrig` from s626.c: the one-shot software trigger — wrong
trigger ids are rejected, otherwise start the RPS program and disarm the
trigger handle. -/
def s626_ai_inttrig (st : S626State) (trignum : Nat) : S626State × Bool :=
  if trignum ≠ 0 then (st, false)
  else ({ st with mc1_erps1 := true, inttrig_armed := false }, true)

/-- Result of arming a command. -/
inductive AiCmdResult where
  | ok
  | ebusy
deriving DecidableEq

/-- `s626_ai_cmd` from s626.c: reject with `-EBUSY` while a command runs
(before any state change); otherwise mask interrupts, acknowledge and
clear pending causes, build the poll list (into a fresh local 16-byte
buffer, modelled zero-initialized), set the running flag, configure the
scan-begin and convert pacing (counter 5 / counter 4 as timers, writing
the realized intervals back into the stored command, or DIO edges),
record the stop condition, rebuild the RPS program, start per the start
source (immediately, on a DIO edge, or arming the one-shot software
trigger), and finally enable the GPIO3 and RPS1 interrupts.  The source's
`cmd == NULL` EINVAL check cannot fire (the pointer is the address of the
embedded `s->async->cmd`), so it is not modelled. -/
def s626_ai_cmd (st : S626State) : AiCmdResult × S626State :=
  if st.ai_cmd_running then (.ebusy, st)
  else
    -- disable interrupt, clear interrupt request, clear pending DIO
    let st := { st with ier := 0 }
    let st := { st with isr :=
      st.isr &&& (0xffffffff ^^^ (S626_IRQ_RPS1 ||| S626_IRQ_GPIO3)) }
    let st := s626_dio_clear_irq st
    let st := { st with ai_cmd_running := false }
    -- build the poll list from the command's channel list
    let ppl := (s626_ai_load_polllist (fun _ => 0) st.cmd).1
    let st := { st with ai_cmd_running := true }
    let st := { st with ai_convert_count := 0 }
    -- scan-begin pacing
    let st :=
      if st.cmd.scan_begin_src = TRIG_TIMER then
        let t := s626_ns_to_timer st.cmd.scan_begin_arg
          (st.cmd.flags &&& TRIG_ROUND_MASK)
        let st := { st with cmd := { st.cmd with scan_begin_arg := t.2 } }
        let st := s626_timer_load st 5 t.1
        s626_set_enable st 5 S626_CLKENAB_ALWAYS
      else if st.cmd.scan_begin_src = TRIG_EXT then
        if st.cmd.start_src ≠ TRIG_EXT then
          s626_dio_set_irq st st.cmd.scan_begin_arg
        else st
      else st
    -- convert pacing
    let st :=
      if st.cmd.convert_src = TRIG_TIMER then
        let t := s626_ns_to_timer st.cmd.convert_arg
          (st.cmd.flags &&& TRIG_ROUND_MASK)
        let st := { st with cmd := { st.cmd with convert_arg := t.2 } }
        let st := s626_timer_load st 4 t.1
        s626_set_enable st 4 S626_CLKENAB_INDEX
      else if st.cmd.convert_src = TRIG_EXT then
        if st.cmd.scan_begin_src ≠ TRIG_EXT ∧ st.cmd.start_src = TRIG_EXT then
          s626_dio_set_irq st st.cmd.convert_arg
        else st
      else st
    -- stop condition
    let st :=
      if st.cmd.stop_src = TRIG_COUNT then
        { st with ai_sample_count := int_of_u32 st.cmd.stop_arg,
                  ai_continuous := false }
      else if st.cmd.stop_src = TRIG_NONE then
        { st with ai_continuous := true, ai_sample_count := 1 }
      else st
    -- build the RPS program
    let st := s626_reset_adc st (some st.cmd) ppl
    -- start source
    let st :=
      if st.cmd.start_src = TRIG_NOW then
        { st with mc1_erps1 := true, inttrig_armed := false }
      else if st.cmd.start_src = TRIG_EXT then
        let st := s626_dio_set_irq st st.cmd.start_arg
        { st with inttrig_armed := false }
      else if st.cmd.start_src = TRIG_INT then
        { st with inttrig_armed := true }
      else st
    -- enable interrupt
    let st := { st with ier := S626_IRQ_GPIO3 ||| S626_IRQ_RPS1 }
    (.ok, st)

/-- `s626_ai_cancel` from s626.c: stop the RPS program, disable the master
interrupt, and clear the running flag. -/
def s626_ai_cancel (st : S626State) : S626State :=
  let st := { st with mc1_erps1 := false }
  let st := { st with ier := 0 }
  { st with ai_cmd_running := false }

/-- C6: rebuilding the RPS program with the same poll list and command is
idempotent — the second invocation reproduces the first's instruction
sequence (hence the same instruction count) and `adc_items`, because the
builder reads none of the state it overwrites (it writes `adc_items` and
the program buffer but depends only on the command, the poll list, the
running flag, and the fixed DMA base addresses). -/
theorem s626_reset_adc_idempotent (st : S626State) (cmd : Option comedi_cmd)
    (ppl : Nat → Nat) :
    (s626_reset_adc (s626_reset_adc st cmd ppl) cmd ppl).rps_program =
      (s626_reset_adc st cmd ppl).rps_program ∧
    (s626_reset_adc (s626_reset_adc st cmd ppl) cmd ppl).rps_program.length =
      (s626_reset_adc st cmd ppl).rps_program.length ∧
    (s626_reset_adc (s626_reset_adc st cmd ppl) cmd ppl).adc_items =
      (s626_reset_adc st cmd ppl).adc_items := by
  refine ⟨rfl, rfl, rfl⟩

/-- Witness for C6 at a concrete state, command and poll list. -/
theorem s626_reset_adc_idempotent_witness :
    (s626_reset_adc
        (s626_reset_adc
          (S626State.mk (fun _ => CounterRegs.mk (CRA.mk 0 0 0 0 0 0 0 0 0)
              (CRB.mk 0 0 0 0 0 0 0 0 0) 0 0)
            0 false false 0 0 0 [] 0 0 0 false false 0
            (fun _ => DioGroup.mk 0 0 0 0) 0 false
            (comedi_cmd.mk 0 0 0 0 0 0 0 0 0 0 0 (fun _ => 0) 0)
            0 0 (fun _ => 0) [] 0 0)
          none (fun _ => S626_EOPL))
        none (fun _ => S626_EOPL)).rps_program =
      (s626_reset_adc
        (S626State.mk (fun _ => CounterRegs.mk (CRA.mk 0 0 0 0 0 0 0 0 0)
            (CRB.mk 0 0 0 0 0 0 0 0 0) 0 0)
          0 false false 0 0 0 [] 0 0 0 false false 0
          (fun _ => DioGroup.mk 0 0 0 0) 0 false
          (comedi_cmd.mk 0 0 0 0 0 0 0 0 0 0 0 (fun _ => 0) 0)
          0 0 (fun _ => 0) [] 0 0)
        none (fun _ => S626_EOPL)).rps_program :=
  (s626_reset_adc_idempotent _ none (fun _ => S626_EOPL)).1

/-- C3: cancelling from a state with the running flag set (any non-Idle
state) clears the master interrupt-enable register and the running flag,
and a subsequent arm is not rejected as busy — it returns ok — because
the arm path's only busy rejection tests the running flag. -/
theorem s626_cancel_then_arm (st : S626State)
    (_h : st.ai_cmd_running = true) :
    (s626_ai_cancel st).ier = 0 ∧
    (s626_ai_cancel st).ai_cmd_running = false ∧
    (s626_ai_cmd (s626_ai_cancel st)).1 = .ok ∧
    (∀ s2 : S626State, (s626_ai_cmd s2).1 = .ebusy ↔ s2.ai_cmd_running = true) := by
  refine ⟨rfl, rfl, rfl, ?_⟩
  intro s2
  cases h2 : s2.ai_cmd_running <;> simp [s626_ai_cmd, h2]

/-- Witness for C3 at a concrete running state. -/
theorem s626_cancel_then_arm_witness :
    (S626State.mk (fun _ => CounterRegs.mk (CRA.mk 0 0 0 0 0 0 0 0 0)
        (CRB.mk 0 0 0 0 0 0 0 0 0) 0 0)
      0 true false 0 0 0 [] 0 0x10000040 0 true false 0
      (fun _ => DioGroup.mk 0 0 0 0) 0 false
      (comedi_cmd.mk TRIG_NOW 0 TRIG_FOLLOW 0 TRIG_NOW 0 TRIG_COUNT 1
        TRIG_COUNT 1 1 (fun _ => 0) 0)
      0 0 (fun _ => 0) [] 0 0).ai_cmd_running = true ∧
    ((s626_ai_cancel
        (S626State.mk (fun _ => CounterRegs.mk (CRA.mk 0 0 0 0 0 0 0 0 0)
            (CRB.mk 0 0 0 0 0 0 0 0 0) 0 0)
          0 true false 0 0 0 [] 0 0x10000040 0 true false 0
          (fun _ => DioGroup.mk 0 0 0 0) 0 false
          (comedi_cmd.mk TRIG_NOW 0 TRIG_FOLLOW 0 TRIG_NOW 0 TRIG_COUNT 1
            TRIG_COUNT 1 1 (fun _ => 0) 0)
          0 0 (fun _ => 0) [] 0 0)).ier = 0 ∧
      (s626_ai_cmd (s626_ai_cancel
        (S626State.mk (fun _ => CounterRegs.mk (CRA.mk 0 0 0 0 0 0 0 0 0)
            (CRB.mk 0 0 0 0 0 0 0 0 0) 0 0)
          0 true false 0 0 0 [] 0 0x10000040 0 true false 0
          (fun _ => DioGroup.mk 0 0 0 0) 0 false
          (comedi_cmd.mk TRIG_NOW 0 TRIG_FOLLOW 0 TRIG_NOW 0 TRIG_COUNT 1
            TRIG_COUNT 1 1 (fun _ => 0) 0)
          0 0 (fun _ => 0) [] 0 0))).1 = .ok) := by
  have h := s626_cancel_then_arm
    (S626State.mk (fun _ => CounterRegs.mk (CRA.mk 0 0 0 0 0 0 0 0 0)
        (CRB.mk 0 0 0 0 0 0 0 0 0) 0 0)
      0 true false 0 0 0 [] 0 0x10000040 0 true false 0
      (fun _ => DioGroup.mk 0 0 0 0) 0 false
      (comedi_cmd.mk TRIG_NOW 0 TRIG_FOLLOW 0 TRIG_NOW 0 TRIG_COUNT 1
        TRIG_COUNT 1 1 (fun _ => 0) 0)
      0 0 (fun _ => 0) [] 0 0) rfl
  exact ⟨rfl, h.1, h.2.2.1⟩

/-! ## The retirement scenario (C2)

A concrete streaming session: immediate start, scan-begin follows, convert
immediate, stop after 3 scans of a single channel, run on a device in a
zeroed initial state whose ADC DMA buffer reads as zero words (so every
converted sample is `s626_ai_reg_to_uint 0 = 0x2000 = 8192`). -/

/-- A zeroed device state. -/
def s626_zero_state : S626State where
  counters := fun _ => CounterRegs.mk (CRA.mk 0 0 0 0 0 0 0 0 0)
    (CRB.mk 0 0 0 0 0 0 0 0 0) 0 0
  counter_int_enabs := 0
  ai_cmd_running := false
  ai_continuous := false
  ai_sample_count := 0
  ai_convert_count := 0
  adc_items := 0
  rps_program := []
  rpsaddr1 := 0
  ier := 0
  isr := 0
  mc1_erps1 := false
  mc2_adc_rps := false
  misc1 := 0
  dio := fun _ => DioGroup.mk 0 0 0 0
  rdmisc2 := 0
  inttrig_armed := false
  cmd := comedi_cmd.mk 0 0 0 0 0 0 0 0 0 0 0 (fun _ => 0) 0
  rps_base := 0
  ana_base := 0
  ana_buf := fun _ => 0
  published := []
  events_eos := 0
  events_eoa := 0

/-- The C2 command: start immediately, scan-begin follows the start,
convert immediately, one channel per scan, stop after 3 scans. -/
def s626_c2_cmd : comedi_cmd where
  start_src := TRIG_NOW
  start_arg := 0
  scan_begin_src := TRIG_FOLLOW
  scan_begin_arg := 0
  convert_src := TRIG_NOW
  convert_arg := 0
  scan_end_src := TRIG_COUNT
  scan_end_arg := 1
  stop_src := TRIG_COUNT
  stop_arg := 3
  chanlist_len := 1
  chanlist := fun _ => 0
  flags := 0

/-- The device state after arming the C2 command. -/
def s626_c2_armed : S626State :=
  (s626_ai_cmd { s626_zero_state with cmd := s626_c2_cmd }).2

/-- One end-of-scan interrupt delivery. -/
def s626_c2_step (st : S626State) : S626State :=
  s626_irq_handler st S626_IRQ_RPS1

/-- The state after `n` end-of-scan interrupts follow the arm. -/
def s626_c2_after (n : Nat) : S626State := s626_c2_step^[n] s626_c2_armed

/-- C2 counterexample: the claim says that after the third end-of-scan
interrupt retires the acquisition (state Idle), a subsequent interrupt of
the same cause is a no-op.  It is not: the end-of-scan handler has no
Idle guard, so a fourth delivery publishes a fourth scan and a second
end-of-acquisition event. -/
theorem s626_eos_idle_not_noop :
    (s626_c2_after 3).ai_cmd_running = false ∧
    (s626_c2_after 4).published.length ≠ (s626_c2_after 3).published.length ∧
    (s626_c2_after 4).events_eoa ≠ (s626_c2_after 3).events_eoa := by
  refine ⟨by decide, by decide, by decide⟩

/-- C2 (amended): arming the stop-count-3 command and delivering three
end-of-scan interrupts publishes exactly one converted scan per
interrupt; the third clears the running flag, disables the RPS
sequencer, publishes the end-of-acquisition event, and leaves the master
interrupt-enable register cleared, so the retired acquisition receives no
further end-of-scan interrupts while masked.  The handler itself has no
Idle guard: delivering the cause again anyway would publish another scan
(see the counterexample), so the no-op property holds only through the
cleared interrupt mask. -/
theorem s626_eos_retirement :
    (s626_c2_armed.ai_cmd_running = true ∧
      s626_c2_armed.ai_continuous = false ∧
      s626_c2_armed.ai_sample_count = 3 ∧
      s626_c2_armed.mc1_erps1 = true ∧
      s626_c2_armed.ier = (S626_IRQ_GPIO3 ||| S626_IRQ_RPS1)) ∧
    ((s626_c2_after 1).published = [8192] ∧
      (s626_c2_after 1).events_eos = 1 ∧
      (s626_c2_after 1).events_eoa = 0 ∧
      (s626_c2_after 1).ai_cmd_running = true ∧
      (s626_c2_after 1).ier = (S626_IRQ_GPIO3 ||| S626_IRQ_RPS1)) ∧
    ((s626_c2_after 2).published = [8192, 8192] ∧
      (s626_c2_after 2).events_eos = 2 ∧
      (s626_c2_after 2).events_eoa = 0 ∧
      (s626_c2_after 2).ai_cmd_running = true ∧
      (s626_c2_after 2).ier = (S626_IRQ_GPIO3 ||| S626_IRQ_RPS1)) ∧
    ((s626_c2_after 3).published = [8192, 8192, 8192] ∧
      (s626_c2_after 3).events_eos = 3 ∧
      (s626_c2_after 3).events_eoa = 1 ∧
      (s626_c2_after 3).ai_cmd_running = false ∧
      (s626_c2_after 3).mc1_erps1 = false ∧
      (s626_c2_after 3).ier = 0) := by
  refine ⟨⟨by decide, by decide, by decide, by decide, by decide⟩,
    ⟨by decide, by decide, by decide, by decide, by decide⟩,
    ⟨by decide, by decide, by decide, by decide, by decide⟩,
    ⟨by decide, by decide, by decide, by decide, by decide, by decide⟩⟩

/-! ## Command validation (`s626_ai_cmdtest`)

The `cfc_*` helpers come from `comedi_fc.h` (part of the repository, not
under `src/`) and are modelled from the spec's boundary description of the
validation framework: each canonicalizes its field (masking the source
set, clamping or overwriting the argument) and reports whether it had to
change anything.  The C `err` accumulates `0`/`-EINVAL` with bitwise OR
and is only ever tested against zero, so it is modelled as `Bool` per
step (step 4 counts increments with a `Nat`, also only tested against
zero). -/

/-- Modelled from the spec: `cfc_check_trigger_src` — mask the source set
to the allowed flags; error if the result is empty or differed. -/
def cfc_check_trigger_src (src flags : Nat) : Bool × Nat :=
  let masked := src &&& flags
  (masked == 0 || masked != src, masked)

/-- Modelled from the spec: `cfc_check_trigger_is_unique` — error unless
at most one source bit is set. -/
def cfc_check_trigger_is_unique (src : Nat) : Bool :=
  src &&& (src - 1) != 0

/-- Modelled from the spec: `cfc_check_trigger_arg_is` — force the
argument to a value; error if it differed. -/
def cfc_check_trigger_arg_is (arg val : Nat) : Bool × Nat :=
  if arg ≠ val then (true, val) else (false, arg)

/-- Modelled from the spec: `cfc_check_trigger_arg_min` — raise the
argument to a minimum; error if it was below. -/
def cfc_check_trigger_arg_min (arg val : Nat) : Bool × Nat :=
  if arg < val then (true, val) else (false, arg)

/-- Modelled from the spec: `cfc_check_trigger_arg_max` — clamp the
argument to a maximum; error if it was above. -/
def cfc_check_trigger_arg_max (arg val : Nat) : Bool × Nat :=
  if arg > val then (true, val) else (false, arg)

/-- Validation step 1 of `s626_ai_cmdtest`: the five trigger classes must
select only trivially valid sources (start: now/int/ext; scan-begin:
timer/ext/follow; convert: timer/ext/now; scan-end: count; stop:
count/none). -/
def s626_ai_cmdtest_step1 (c : comedi_cmd) : Bool × comedi_cmd :=
  let r1 := cfc_check_trigger_src c.start_src
    (TRIG_NOW ||| TRIG_INT ||| TRIG_EXT)
  let r2 := cfc_check_trigger_src c.scan_begin_src
    (TRIG_TIMER ||| TRIG_EXT ||| TRIG_FOLLOW)
  let r3 := cfc_check_trigger_src c.convert_src
    (TRIG_TIMER ||| TRIG_EXT ||| TRIG_NOW)
  let r4 := cfc_check_trigger_src c.scan_end_src TRIG_COUNT
  let r5 := cfc_check_trigger_src c.stop_src (TRIG_COUNT ||| TRIG_NONE)
  (r1.1 || r2.1 || r3.1 || r4.1 || r5.1,
   { c with start_src := r1.2, scan_begin_src := r2.2, convert_src := r3.2,
            scan_end_src := r4.2, stop_src := r5.2 })

/-- Validation step 2a of `s626_ai_cmdtest`: the start, scan-begin,
convert and stop sources must each be unique (step 2b is empty). -/
def s626_ai_cmdtest_step2 (c : comedi_cmd) : Bool :=
  cfc_check_trigger_is_unique c.start_src ||
  cfc_check_trigger_is_unique c.scan_begin_src ||
  cfc_check_trigger_is_unique c.convert_src ||
  cfc_check_trigger_is_unique c.stop_src

/-- `S626_MAX_SPEED` / `S626_MIN_SPEED` from s626.c (fastest and slowest
legal timer intervals, in nanoseconds). -/
def S626_MAX_SPEED : Nat := 200000
def S626_MIN_SPEED : Nat := 2000000000

/-- Validation step 3 of `s626_ai_cmdtest`: trivial argument
compatibility — start argument 0 unless external (then a line ≤ 39),
external scan-begin/convert lines ≤ 39, timer intervals within
`[S626_MAX_SPEED, S626_MIN_SPEED]`, scan-end count equal to the
channel-list length, stop count ≤ 0xffffff when counted else 0. -/
def s626_ai_cmdtest_step3 (c : comedi_cmd) : Bool × comedi_cmd :=
  let r1 := if c.start_src ≠ TRIG_EXT then cfc_check_trigger_arg_is c.start_arg 0
    else (false, c.start_arg)
  let r2 := if c.start_src = TRIG_EXT then cfc_check_trigger_arg_max r1.2 39
    else (false, r1.2)
  let r3 := if c.scan_begin_src = TRIG_EXT then
    cfc_check_trigger_arg_max c.scan_begin_arg 39
    else (false, c.scan_begin_arg)
  let r4 := if c.convert_src = TRIG_EXT then
    cfc_check_trigger_arg_max c.convert_arg 39
    else (false, c.convert_arg)
  let r5 := if c.scan_begin_src = TRIG_TIMER then
    cfc_check_trigger_arg_min r3.2 S626_MAX_SPEED
    else (false, r3.2)
  let r6 := if c.scan_begin_src = TRIG_TIMER then
    cfc_check_trigger_arg_max r5.2 S626_MIN_SPEED
    else (false, r5.2)
  let r7 := if c.convert_src = TRIG_TIMER then
    cfc_check_trigger_arg_min r4.2 S626_MAX_SPEED
    else (false, r4.2)
  let r8 := if c.convert_src = TRIG_TIMER then
    cfc_check_trigger_arg_max r7.2 S626_MIN_SPEED
    else (false, r7.2)
  let r9 := cfc_check_trigger_arg_is c.scan_end_arg c.chanlist_len
  let r10 := if c.stop_src = TRIG_COUNT then
    cfc_check_trigger_arg_max c.stop_arg 0x00ffffff
    else cfc_check_trigger_arg_is c.stop_arg 0
  (r1.1 || r2.1 || r3.1 || r4.1 || r5.1 || r6.1 || r7.1 || r8.1 || r9.1 ||
    r10.1,
   { c with start_arg := r2.2, scan_begin_arg := r6.2, convert_arg := r8.2,
            scan_end_arg := r9.2, stop_arg := r10.2 })

/-- Validation step 4 of `s626_ai_cmdtest`: fix up the timer arguments to
the realized interval (counting a change as an error), then, when both
scan-begin and convert are timer-paced and the (realized) scan-begin
interval is smaller than the 32-bit product `convert_arg * scan_end_arg`,
widen it to exactly that product and count an error. -/
def s626_ai_cmdtest_step4 (c : comedi_cmd) : Nat × comedi_cmd :=
  let sb :=
    if c.scan_begin_src = TRIG_TIMER then
      let t := s626_ns_to_timer c.scan_begin_arg (c.flags &&& TRIG_ROUND_MASK)
      ((if c.scan_begin_arg ≠ t.2 then 1 else 0), t.2)
    else (0, c.scan_begin_arg)
  let c1 := { c with scan_begin_arg := sb.2 }
  if c1.convert_src = TRIG_TIMER then
    let t := s626_ns_to_timer c1.convert_arg (c1.flags &&& TRIG_ROUND_MASK)
    let err2 := if c1.convert_arg ≠ t.2 then 1 else 0
    let c2 := { c1 with convert_arg := t.2 }
    if c2.scan_begin_src = TRIG_TIMER ∧
        c2.scan_begin_arg < (c2.convert_arg * c2.scan_end_arg) % 2 ^ 32 then
      (sb.1 + err2 + 1,
       { c2 with scan_begin_arg := (c2.convert_arg * c2.scan_end_arg) % 2 ^ 32 })
    else (sb.1 + err2, c2)
  else (sb.1, c1)

/-- `s626_ai_cmdtest` from s626.c: run the four validation steps in order
and return the first failing step (0 when all pass) together with the
canonicalized command. -/
def s626_ai_cmdtest (c : comedi_cmd) : Nat × comedi_cmd :=
  let s1 := s626_ai_cmdtest_step1 c
  if s1.1 then (1, s1.2)
  else if s626_ai_cmdtest_step2 s1.2 then (2, s1.2)
  else
    let s3 := s626_ai_cmdtest_step3 s1.2
    if s3.1 then (3, s3.2)
    else
      let s4 := s626_ai_cmdtest_step4 s3.2
      if s4.1 ≠ 0 then (4, s4.2) else (0, s4.2)

/-- C7: a command that violates a step-1 rule (trigger-source membership)
reports step 1 as the failing step even when it also violates a step-3
rule (argument bounds) — step 3 is never reached. -/
theorem s626_cmdtest_step_order (c : comedi_cmd)
    (h1 : (s626_ai_cmdtest_step1 c).1 = true)
    (_h3 : (s626_ai_cmdtest_step3 c).1 = true) :
    (s626_ai_cmdtest c).1 = 1 := by
  simp [s626_ai_cmdtest, h1]

/-- Witness for C7: a command whose start source is `TRIG_TIMER` (not a
legal start source — step 1 fails) and whose start argument is nonzero
while stop count exceeds the bound (step-3 violations) reports step 1. -/
theorem s626_cmdtest_step_order_witness :
    ((s626_ai_cmdtest_step1 (comedi_cmd.mk TRIG_TIMER 5 TRIG_FOLLOW 0
        TRIG_NOW 0 TRIG_COUNT 1 TRIG_COUNT 0x1000000 1 (fun _ => 0) 0)).1 =
      true ∧
     (s626_ai_cmdtest_step3 (comedi_cmd.mk TRIG_TIMER 5 TRIG_FOLLOW 0
        TRIG_NOW 0 TRIG_COUNT 1 TRIG_COUNT 0x1000000 1 (fun _ => 0) 0)).1 =
      true) ∧
    (s626_ai_cmdtest (comedi_cmd.mk TRIG_TIMER 5 TRIG_FOLLOW 0
        TRIG_NOW 0 TRIG_COUNT 1 TRIG_COUNT 0x1000000 1 (fun _ => 0) 0)).1 =
      1 :=
  ⟨⟨by decide, by decide⟩,
    s626_cmdtest_step_order _ (by decide) (by decide)⟩

/-- The command as canonicalized by validation steps 1–3 (the values the
step-4 fixups operate on). -/
def s626_ai_cmdtest_through3 (c : comedi_cmd) : comedi_cmd :=
  (s626_ai_cmdtest_step3 (s626_ai_cmdtest_step1 c).2).2

/-- C8 counterexample: the widening comparison and the widened value use
the 32-bit truncated product, not the mathematical product.  For this
command (convert timer 200000 ns, scan-begin timer 1000000 ns, scan-end
count 2^27) the mathematical product `200000 * 2^27` is far above
`scan_begin_arg`, but it truncates to 0 mod 2^32, so validation performs
no widening, counts no error, and returns 0 — not step 4 — leaving
`scan_begin_arg` at 1000000. -/
theorem s626_cmdtest_step4_overflow :
    ((comedi_cmd.mk TRIG_NOW 0 TRIG_TIMER 1000000 TRIG_TIMER 200000
        TRIG_COUNT 134217728 TRIG_COUNT 1 134217728 (fun _ => 0)
        0).convert_src = TRIG_TIMER ∧
     (comedi_cmd.mk TRIG_NOW 0 TRIG_TIMER 1000000 TRIG_TIMER 200000
        TRIG_COUNT 134217728 TRIG_COUNT 1 134217728 (fun _ => 0)
        0).scan_begin_src = TRIG_TIMER) ∧
    (1000000 : Nat) <
      (comedi_cmd.mk TRIG_NOW 0 TRIG_TIMER 1000000 TRIG_TIMER 200000
        TRIG_COUNT 134217728 TRIG_COUNT 1 134217728 (fun _ => 0)
        0).convert_arg *
      (comedi_cmd.mk TRIG_NOW 0 TRIG_TIMER 1000000 TRIG_TIMER 200000
        TRIG_COUNT 134217728 TRIG_COUNT 1 134217728 (fun _ => 0)
        0).scan_end_arg ∧
    (s626_ai_cmdtest (comedi_cmd.mk TRIG_NOW 0 TRIG_TIMER 1000000
        TRIG_TIMER 200000 TRIG_COUNT 134217728 TRIG_COUNT 1 134217728
        (fun _ => 0) 0)).1 = 0 ∧
    (s626_ai_cmdtest (comedi_cmd.mk TRIG_NOW 0 TRIG_TIMER 1000000
        TRIG_TIMER 200000 TRIG_COUNT 134217728 TRIG_COUNT 1 134217728
        (fun _ => 0) 0)).2.scan_begin_arg = 1000000 := by
  refine ⟨⟨by decide, by decide⟩, by decide, by decide, by decide⟩

/-- C8 (amended): for every command that reaches validation step 4 with
both scan-begin and convert timer-paced, if the realized scan-begin
interval is smaller than the 32-bit truncated product
`(convert_arg * scan_end_arg) mod 2^32` (computed from the realized
convert interval), validation widens `scan_begin_arg` to exactly that
truncated product, counts the correction as an error, and returns step 4
as the failing step. -/
theorem s626_cmdtest_step4_widens (c : comedi_cmd)
    (h1 : (s626_ai_cmdtest_step1 c).1 = false)
    (h2 : s626_ai_cmdtest_step2 (s626_ai_cmdtest_step1 c).2 = false)
    (h3 : (s626_ai_cmdtest_step3 (s626_ai_cmdtest_step1 c).2).1 = false)
    (hconv : (s626_ai_cmdtest_through3 c).convert_src = TRIG_TIMER)
    (hscan : (s626_ai_cmdtest_through3 c).scan_begin_src = TRIG_TIMER)
    (hlt :
      (s626_ns_to_timer (s626_ai_cmdtest_through3 c).scan_begin_arg
        ((s626_ai_cmdtest_through3 c).flags &&& TRIG_ROUND_MASK)).2 <
      ((s626_ns_to_timer (s626_ai_cmdtest_through3 c).convert_arg
          ((s626_ai_cmdtest_through3 c).flags &&& TRIG_ROUND_MASK)).2 *
        (s626_ai_cmdtest_through3 c).scan_end_arg) % 2 ^ 32) :
    (s626_ai_cmdtest c).1 = 4 ∧
    (s626_ai_cmdtest c).2.scan_begin_arg =
      ((s626_ns_to_timer (s626_ai_cmdtest_through3 c).convert_arg
          ((s626_ai_cmdtest_through3 c).flags &&& TRIG_ROUND_MASK)).2 *
        (s626_ai_cmdtest_through3 c).scan_end_arg) % 2 ^ 32 := by
  unfold s626_ai_cmdtest_through3 at hconv hscan hlt
  have key : (s626_ai_cmdtest_step4
      (s626_ai_cmdtest_step3 (s626_ai_cmdtest_step1 c).2).2).1 ≠ 0 ∧
      (s626_ai_cmdtest_step4
        (s626_ai_cmdtest_step3 (s626_ai_cmdtest_step1 c).2).2).2.scan_begin_arg =
        ((s626_ns_to_timer
            (s626_ai_cmdtest_step3 (s626_ai_cmdtest_step1 c).2).2.convert_arg
            ((s626_ai_cmdtest_step3 (s626_ai_cmdtest_step1 c).2).2.flags &&&
              TRIG_ROUND_MASK)).2 *
          (s626_ai_cmdtest_step3 (s626_ai_cmdtest_step1 c).2).2.scan_end_arg) %
          2 ^ 32 := by
    simp only [s626_ai_cmdtest_step4, hconv, hscan, reduceIte, eq_self_iff_true,
      true_and]
    rw [if_pos hlt]
    exact ⟨by omega, rfl⟩
  simp only [s626_ai_cmdtest]
  rw [if_neg (by simp [h1]), if_neg (by simp [h2]), if_neg (by simp [h3]),
    if_pos key.1]
  exact ⟨rfl, key.2⟩

/-- Witness for the amended C8 theorem: convert timer 200000 ns over a
2-channel scan forces the 200000 ns scan-begin interval up to 400000. -/
theorem s626_cmdtest_step4_widens_witness :
    ((s626_ai_cmdtest_step1 (comedi_cmd.mk TRIG_NOW 0 TRIG_TIMER 200000
        TRIG_TIMER 200000 TRIG_COUNT 2 TRIG_COUNT 1 2 (fun _ => 0)
        0)).1 = false) ∧
    (s626_ai_cmdtest (comedi_cmd.mk TRIG_NOW 0 TRIG_TIMER 200000
        TRIG_TIMER 200000 TRIG_COUNT 2 TRIG_COUNT 1 2 (fun _ => 0)
        0)).1 = 4 ∧
    (s626_ai_cmdtest (comedi_cmd.mk TRIG_NOW 0 TRIG_TIMER 200000
        TRIG_TIMER 200000 TRIG_COUNT 2 TRIG_COUNT 1 2 (fun _ => 0)
        0)).2.scan_begin_arg = 400000 := by
  have h := s626_cmdtest_step4_widens (comedi_cmd.mk TRIG_NOW 0 TRIG_TIMER
    200000 TRIG_TIMER 200000 TRIG_COUNT 2 TRIG_COUNT 1 2 (fun _ => 0) 0)
    (by decide) (by decide) (by decide) (by decide) (by decide) (by decide)
  exact ⟨by decide, h.1, h.2⟩

/-- C10: the poll-list loader writes exactly the buffer indices
`0..chanlist_len-1` (the end-flag write re-touches the last of them), with
no bound check; every write lands inside the 16-entry buffer supplied by
the arm path if and only if the channel list has at most 16 entries — and
validation itself never bounds the channel-list length: a 20-channel
command passes `s626_ai_cmdtest` with result 0. -/
theorem s626_polllist_bounds :
    (∀ (ppl : Nat → Nat) (cmd : comedi_cmd),
      (s626_ai_load_polllist ppl cmd).2.1 =
        List.range cmd.chanlist_len ++
          (if cmd.chanlist_len ≠ 0 then [cmd.chanlist_len - 1] else []) ∧
      ((∀ i ∈ (s626_ai_load_polllist ppl cmd).2.1, i < 16) ↔
        cmd.chanlist_len ≤ 16)) ∧
    ((s626_ai_cmdtest (comedi_cmd.mk TRIG_NOW 0 TRIG_FOLLOW 0 TRIG_NOW 0
        TRIG_COUNT 20 TRIG_COUNT 1 20 (fun i => i) 0)).1 = 0 ∧
      (comedi_cmd.mk TRIG_NOW 0 TRIG_FOLLOW 0 TRIG_NOW 0 TRIG_COUNT 20
        TRIG_COUNT 1 20 (fun i => i) 0).chanlist_len = 20) := by
  refine ⟨fun ppl cmd => ⟨rfl, ?_⟩, by decide, rfl⟩
  constructor
  · intro hall
    by_contra hgt
    have h16 : (16 : Nat) ∈ List.range cmd.chanlist_len ++
        (if cmd.chanlist_len ≠ 0 then [cmd.chanlist_len - 1] else []) := by
      simp only [List.mem_append, List.mem_range]
      exact Or.inl (by omega)
    exact absurd (hall 16 h16) (by omega)
  · intro hle i hi
    rcases List.mem_append.mp hi with h | h
    · have := List.mem_range.mp h
      omega
    · rcases Nat.eq_zero_or_pos cmd.chanlist_len with h0 | h0
      · simp [h0] at h
      · simp only [if_pos (by omega : cmd.chanlist_len ≠ 0),
          List.mem_singleton] at h
        omega

/-- Witness for C10 at a concrete 20-channel command: its writes reach
index 19, outside the 16-entry buffer. -/
theorem s626_polllist_bounds_witness :
    (s626_ai_load_polllist (fun _ => 0) (comedi_cmd.mk TRIG_NOW 0
        TRIG_FOLLOW 0 TRIG_NOW 0 TRIG_COUNT 20 TRIG_COUNT 1 20
        (fun i => i) 0)).2.1 =
      List.range 20 ++ [19] ∧
    ¬ (∀ i ∈ (s626_ai_load_polllist (fun _ => 0) (comedi_cmd.mk TRIG_NOW 0
        TRIG_FOLLOW 0 TRIG_NOW 0 TRIG_COUNT 20 TRIG_COUNT 1 20
        (fun i => i) 0)).2.1, i < 16) := by
  have h := s626_polllist_bounds.1 (fun _ => 0) (comedi_cmd.mk TRIG_NOW 0
    TRIG_FOLLOW 0 TRIG_NOW 0 TRIG_COUNT 20 TRIG_COUNT 1 20 (fun i => i) 0)
  refine ⟨h.1, fun hall => ?_⟩
  have h16 := h.2.mp hall
  norm_num at h16

/-- Witness for C9 at a concrete B counter and register state. -/
theorem s626_pulse_index_preserves_witness :
    (s626_pulse_index 5
        (CounterRegs.mk (CRA.mk 1 2 3 1 0 1 1 2 0)
          (CRB.mk 5 2 1 3 1 0 1 0 1) 7 9)).cra =
      (CRA.mk 1 2 3 1 0 1 1 2 0) ∧
    (s626_pulse_index 5
        (CounterRegs.mk (CRA.mk 1 2 3 1 0 1 1 2 0)
          (CRB.mk 5 2 1 3 1 0 1 0 1) 7 9)).crb.latchsrc = 2 ∧
    (s626_pulse_index 5
        (CounterRegs.mk (CRA.mk 1 2 3 1 0 1 1 2 0)
          (CRB.mk 5 2 1 3 1 0 1 0 1) 7 9)).crb.intctrl = 0 := by
  have h := s626_pulse_index_preserves 5
    (CounterRegs.mk (CRA.mk 1 2 3 1 0 1 1 2 0) (CRB.mk 5 2 1 3 1 0 1 0 1) 7 9)
  exact ⟨h.2.2.1, h.2.2.2.1, by rw [h.2.2.2.2.2.2.2.2.2.2.2.1]; decide⟩
